import Mathlib

/-!
Verification of the sms-fwd multi-channel SMS forwarder.

The definitions below are a shallow embedding of the Python sources:
`db.py` (persisted record store), `app.py` / `sms.py` (`handleSms`
multipart reassembly and the three forwarding workers), `api.py`
(`send_to_api_providers`, `api_forward_worker`), `email.py`
(`email_forward_worker`), and `main.py` (shared queues / failure set).

External effects are modelled explicitly: the SQLite table is a list of
records, the three `queue.Queue` objects are lists, `failed_services` is
a list used with set discipline, the in-memory `multipart_messages`
defaultdict is a function from (sender, reference) keys to optional
per-message data, and network transports (HTTP, modem, SMTP) are boolean
oracles passed as parameters.  `time.sleep` is modelled as an emitted
delay value.  A Python exception inside a worker's try block is modelled
by the `SendOutcome` type; the catch-all `except Exception` corresponds
to the match arms that leave the running `success` flag unchanged.
-/

/-- Row of the sms_messages table created by init_database in db.py. -/
structure SmsRecord where
  id : Nat
  sender : String
  timestamp : String
  reference : Option Nat
  total_parts : Option Nat
  message_text : String
  api_forwarded : Bool
  sms_forwarded : Bool
  email_forwarded : Bool
deriving DecidableEq

/-- Item of the api_queue: (sender, timestamp, message, sms_id, retry_count, provider). -/
structure ApiTask where
  sender : String
  timestamp : String
  message : String
  sms_id : Option Nat
  retry_count : Nat
  provider : Option String
deriving DecidableEq

/-- Item of the sms_queue / email_queue: (sender, timestamp, message, sms_id, retry_count). -/
structure FwdTask where
  sender : String
  timestamp : String
  message : String
  sms_id : Option Nat
  retry_count : Nat
deriving DecidableEq

/-- Per-(sender, reference) entry of the multipart_messages buffer:
dict with keys parts, total_parts, timestamp (app.py line 27). -/
structure MessageData where
  parts : List (Nat × String)
  total_parts : Nat
  timestamp : String
deriving DecidableEq

/-- The nested defaultdict multipart_messages, flattened to its
(sender, reference) lookup behaviour.  A key that was never written (or
whose inner dict is still empty) maps to none. -/
def Buffer := (String × Nat) → Option MessageData

/-- Read multipart_messages[sender][ref]; none models a missing key
or a freshly created empty dict. -/
def getBuf (b : Buffer) (sender : String) (ref : Nat) : Option MessageData :=
  b (sender, ref)

/-- Dictionary assignment multipart_messages[sender][ref] = md. -/
def setBuf (b : Buffer) (sender : String) (ref : Nat) (md : MessageData) : Buffer :=
  fun k => if k = (sender, ref) then some md else b k

/-- Deletion del multipart_messages[sender][ref] (the cleanup of the
outer dict in handleSms does not change any lookup). -/
def eraseBuf (b : Buffer) (sender : String) (ref : Nat) : Buffer :=
  fun k => if k = (sender, ref) then none else b k

/-- The empty buffer at process start. -/
def emptyBuf : Buffer := fun _ => none

/-- Result of save_or_update_sms: the new table contents, the next
AUTOINCREMENT id, and the returned sms_id. -/
structure SaveResult where
  db : List SmsRecord
  nextId : Nat
  smsId : Nat
deriving DecidableEq

/-- save_or_update_sms from db.py lines 27-57 (identical in app.py lines
90-120).  With no reference it inserts a fresh row; with a reference it
looks up the row for (sender, reference) and either inserts it or
appends/prepends the fragment text to the stored preview depending on
part_num > 1. -/
def save_or_update_sms (db : List SmsRecord) (nextId : Nat)
    (sender timestamp text : String)
    (reference total_parts part_num : Option Nat) : SaveResult :=
  match reference with
  | none =>
      ⟨db ++ [⟨nextId, sender, timestamp, none, none, text, false, false, false⟩],
        nextId + 1, nextId⟩
  | some ref =>
      match db.find? (fun r => r.sender == sender && r.reference == some ref) with
      | none =>
          ⟨db ++ [⟨nextId, sender, timestamp, some ref, total_parts, text, false, false, false⟩],
            nextId + 1, nextId⟩
      | some r =>
          let updated_text :=
            if part_num.getD 0 > 1 then r.message_text ++ text else text ++ r.message_text
          ⟨db.map (fun q => if q.id == r.id then { q with message_text := updated_text } else q),
            nextId, r.id⟩

/-- UPDATE sms_messages SET api_forwarded = 1 WHERE id = sms_id. -/
def set_api_flag (sms_id : Nat) (r : SmsRecord) : SmsRecord :=
  if r.id = sms_id then { r with api_forwarded := true } else r

/-- UPDATE sms_messages SET sms_forwarded = 1 WHERE id = sms_id. -/
def set_sms_flag (sms_id : Nat) (r : SmsRecord) : SmsRecord :=
  if r.id = sms_id then { r with sms_forwarded := true } else r

/-- UPDATE sms_messages SET email_forwarded = 1 WHERE id = sms_id. -/
def set_email_flag (sms_id : Nat) (r : SmsRecord) : SmsRecord :=
  if r.id = sms_id then { r with email_forwarded := true } else r

/-- mark_as_forwarded from db.py lines 59-73: each requested channel
flag is set to 1 on the row with the given id. -/
def mark_as_forwarded (db : List SmsRecord) (sms_id : Nat)
    (api_forwarded sms_forwarded email_forwarded : Bool) : List SmsRecord :=
  let db1 := if api_forwarded then db.map (set_api_flag sms_id) else db
  let db2 := if sms_forwarded then db1.map (set_sms_flag sms_id) else db1
  if email_forwarded then db2.map (set_email_flag sms_id) else db2

/-- One configured API provider descriptor (config surface consumed by
api.py / app.py).  Only the fields the delivery logic reads are kept. -/
structure Provider where
  name : String
  default : Bool
  method : Option String
  max_retries : Option Nat
deriving DecidableEq

/-- Configuration fields consumed by the dispatcher/notification code. -/
structure Config where
  sms_recipients : List String
  email_recipients : List String
  api_providers : List Provider
  max_retries : Option Nat
  sms_max_retries : Option Nat
  email_max_retries : Option Nat
deriving DecidableEq

/-- Process state shared by handleSms and the three workers: the SQLite
table plus its next AUTOINCREMENT id, the multipart buffer, the three
queues, and failed_services. -/
structure SysState where
  db : List SmsRecord
  nextId : Nat
  multipart_messages : Buffer
  api_queue : List ApiTask
  sms_queue : List FwdTask
  email_queue : List FwdTask
  failed_services : List String

/-- notify_failure from app.py lines 138-156: build the failure message
and push a notification task (sms_id None, retry 0) onto each queue whose
channel is configured non-empty and is not currently in failed_services. -/
def notify_failure (cfg : Config) (now : String) (st : SysState)
    (service_name : String) (sms_id : Nat) : SysState :=
  let message := "Service " ++ service_name ++ " failed after max retries for SMS ID: "
      ++ toString sms_id ++ " at " ++ now
  let st1 := if "SMS" ∉ st.failed_services ∧ cfg.sms_recipients ≠ [] then
      { st with sms_queue := st.sms_queue ++ [⟨"System", now, message, none, 0⟩] } else st
  let st2 := if "Email" ∉ st1.failed_services ∧ cfg.email_recipients ≠ [] then
      { st1 with email_queue := st1.email_queue ++ [⟨"System", now, message, none, 0⟩] } else st1
  if "API" ∉ st2.failed_services ∧ cfg.api_providers ≠ [] then
    { st2 with api_queue := st2.api_queue ++ [⟨"System", now, message, none, 0, none⟩] } else st2

/-- Python str.upper() on an ASCII method name, written over the
character list of the string. -/
def upperStr (s : String) : String :=
  ⟨s.data.map Char.toUpper⟩

/-- provider.get("method", "POST").upper() — app.py line 177. -/
def methodOf (p : Provider) : String :=
  upperStr (p.method.getD "POST")

/-- Outcome of the body of the per-provider try block in
send_to_api_providers.  success models a 2xx response; transportError
models a requests exception or raise_for_status; configError models the
raise ValueError for an unsupported method (app.py line 204).  Every
non-success outcome is an exception swallowed by the catch-all except on
app.py line 209. -/
inductive SendOutcome where
  | success : SendOutcome
  | transportError : SendOutcome
  | configError : String → SendOutcome
deriving DecidableEq

/-- One iteration of the provider loop body in send_to_api_providers,
app.py lines 175-204, with the HTTP client as a boolean oracle. -/
def attempt_provider (http : Provider → Bool) (p : Provider) : SendOutcome :=
  let method := methodOf p
  if method = "POST" then (if http p then .success else .transportError)
  else if method = "GET" then (if http p then .success else .transportError)
  else if method = "PUT" then (if http p then .success else .transportError)
  else .configError ("Unsupported method: " ++ method)

/-- Provider selection in send_to_api_providers, app.py lines 164-173:
the single provider with the hinted name, or all default providers. -/
def selected_providers (api_providers : List Provider) (provider_name : Option String) :
    List Provider :=
  match provider_name with
  | some n => api_providers.filter (fun p => p.name == n)
  | none => api_providers.filter (fun p => p.default)

/-- send_to_api_providers from app.py lines 158-211: empty selection
returns False immediately; otherwise every selected provider is tried in
order, any exception (transport or the unsupported-method ValueError) is
caught and leaves the success flag unchanged, and any single success
makes the whole call succeed. -/
def send_to_api_providers (http : Provider → Bool) (api_providers : List Provider)
    (provider_name : Option String) : Bool :=
  let sel := selected_providers api_providers provider_name
  if sel = [] then false
  else sel.foldl (fun success p =>
    match attempt_provider http p with
    | .success => true
    | .transportError => success
    | .configError _ => success) false

/-- max(provider.get("max_retries", global_max_retries) for provider in
api_providers) — app.py lines 241-242.  The worker only computes this
when api_providers is non-empty, where the fold equals Python's max. -/
def api_max_retries (api_providers : List Provider) (global_max : Nat) : Nat :=
  (api_providers.map (fun p => p.max_retries.getD global_max)).foldl max 0

/-- One loop iteration of api_forward_worker, app.py lines 218-258,
acting on the head of api_queue.  The returned Option Nat is the
time.sleep duration of the iteration, if any. -/
def api_worker_step (cfg : Config) (http : Provider → Bool) (now : String)
    (st : SysState) : SysState × Option Nat :=
  match st.api_queue with
  | [] => (st, none)
  | task :: rest =>
    let st := { st with api_queue := rest }
    if cfg.api_providers = [] then (st, none)
    else
      let success := send_to_api_providers http cfg.api_providers task.provider
      if success then
        let st := match task.sms_id with
          | some id => { st with db := mark_as_forwarded st.db id true false false }
          | none => st
        (if "API" ∈ st.failed_services then
          { st with failed_services := st.failed_services.erase "API" } else st, none)
      else
        let retry_count := task.retry_count + 1
        let max_retries := api_max_retries cfg.api_providers (cfg.max_retries.getD 3)
        if retry_count < max_retries then
          ({ st with api_queue := st.api_queue ++ [{ task with retry_count := retry_count }] },
            some (5 * retry_count))
        else
          if "API" ∉ st.failed_services then
            let st := { st with failed_services := st.failed_services ++ ["API"] }
            match task.sms_id with
            | some id => (notify_failure cfg now st "API" id, none)
            | none => (st, none)
          else (st, none)

/-- One loop iteration of sms_forward_worker, app.py lines 266-312; the
modem is a boolean oracle per recipient, and the attempt succeeds when
any recipient send succeeds. -/
def sms_worker_step (cfg : Config) (modemSend : String → Bool) (now : String)
    (recipients : List String) (st : SysState) : SysState × Option Nat :=
  match st.sms_queue with
  | [] => (st, none)
  | task :: rest =>
    let st := { st with sms_queue := rest }
    if recipients = [] then (st, none)
    else
      let success := recipients.any modemSend
      if success then
        let st := match task.sms_id with
          | some id => { st with db := mark_as_forwarded st.db id false true false }
          | none => st
        (if "SMS" ∈ st.failed_services then
          { st with failed_services := st.failed_services.erase "SMS" } else st, none)
      else
        let retry_count := task.retry_count + 1
        let max_retries := cfg.sms_max_retries.getD (cfg.max_retries.getD 3)
        if retry_count < max_retries then
          ({ st with sms_queue := st.sms_queue ++ [{ task with retry_count := retry_count }] },
            some (5 * retry_count))
        else
          if "SMS" ∉ st.failed_services then
            let st := { st with failed_services := st.failed_services ++ ["SMS"] }
            match task.sms_id with
            | some id => (notify_failure cfg now st "SMS" id, none)
            | none => (st, none)
          else (st, none)

/-- One loop iteration of email_forward_worker, app.py lines 320-376;
the SMTP transaction is a boolean oracle. -/
def email_worker_step (cfg : Config) (smtpOk : Bool) (now : String)
    (st : SysState) : SysState × Option Nat :=
  match st.email_queue with
  | [] => (st, none)
  | task :: rest =>
    let st := { st with email_queue := rest }
    if cfg.email_recipients = [] then (st, none)
    else
      if smtpOk then
        let st := match task.sms_id with
          | some id => { st with db := mark_as_forwarded st.db id false false true }
          | none => st
        (if "Email" ∈ st.failed_services then
          { st with failed_services := st.failed_services.erase "Email" } else st, none)
      else
        let retry_count := task.retry_count + 1
        let max_retries := cfg.email_max_retries.getD (cfg.max_retries.getD 3)
        if retry_count < max_retries then
          ({ st with email_queue := st.email_queue ++ [{ task with retry_count := retry_count }] },
            some (5 * retry_count))
        else
          if "Email" ∉ st.failed_services then
            let st := { st with failed_services := st.failed_services ++ ["Email"] }
            match task.sms_id with
            | some id => (notify_failure cfg now st "Email" id, none)
            | none => (st, none)
          else (st, none)

/-- Iterate the API worker k times, collecting the sleep durations in
order. -/
def api_worker_run (cfg : Config) (http : Provider → Bool) (now : String) :
    Nat → SysState → SysState × List Nat
  | 0, st => (st, [])
  | k + 1, st =>
    let r := api_worker_step cfg http now st
    let rec2 := api_worker_run cfg http now k r.1
    (rec2.1, (match r.2 with | some d => [d] | none => []) ++ rec2.2)

/-- Relation used by message_data['parts'].sort(key=lambda x: x[0]) —
comparison on the part index only. -/
def leIdx (a b : Nat × String) : Prop := a.1 ≤ b.1

/-- Strict version of leIdx, used to state uniqueness of the sorted
arrangement. -/
def ltIdx (a b : Nat × String) : Prop := a.1 < b.1

instance : DecidableRel leIdx := fun a b => Nat.decLe a.1 b.1

instance : IsTotal (Nat × String) leIdx := ⟨fun a b => Nat.le_total a.1 b.1⟩

instance : IsTrans (Nat × String) leIdx := ⟨fun _ _ _ h1 h2 => Nat.le_trans h1 h2⟩

instance : IsAntisymm (Nat × String) ltIdx :=
  ⟨fun _ _ h1 h2 => absurd (Nat.lt_trans h1 h2) (Nat.lt_irrefl _)⟩

/-- Python's stable list.sort with key x[0], modelled by the stable
insertion sort on the index order. -/
def sortParts (parts : List (Nat × String)) : List (Nat × String) :=
  List.insertionSort leIdx parts

/-- ''.join(part[1] for part in parts). -/
def joinParts (parts : List (Nat × String)) : String :=
  String.join (parts.map Prod.snd)

/-- The Concatenation branch of handleSms, app.py lines 393-431: persist
the fragment preview, append the (part_num, text) pair to the buffer
entry (creating it with the fragment's total_parts and timestamp when
first seen), enqueue a partial API task for part 1, and on the buffer
reaching the fragment's total_parts sort, join, enqueue to all three
queues and delete the buffer entry. -/
def handleSmsFragment (st : SysState) (sender timestamp text : String)
    (ref_num total_parts part_num : Nat) (provider : Option String) : SysState :=
  let res := save_or_update_sms st.db st.nextId sender timestamp text
      (some ref_num) (some total_parts) (some part_num)
  let sms_id := res.smsId
  let message_data :=
    match getBuf st.multipart_messages sender ref_num with
    | some md => md
    | none => ⟨[], total_parts, timestamp⟩
  let message_data := { message_data with parts := message_data.parts ++ [(part_num, text)] }
  let api1 := if part_num = 1 then
      st.api_queue ++ [⟨sender, timestamp, text, some sms_id, 0, provider⟩]
    else st.api_queue
  if message_data.parts.length = total_parts then
    let complete_message := joinParts (sortParts message_data.parts)
    { db := res.db, nextId := res.nextId,
      multipart_messages := eraseBuf st.multipart_messages sender ref_num,
      api_queue := api1 ++ [⟨sender, timestamp, complete_message, some sms_id, 0, provider⟩],
      sms_queue := st.sms_queue ++ [⟨sender, timestamp, complete_message, some sms_id, 0⟩],
      email_queue := st.email_queue ++ [⟨sender, timestamp, complete_message, some sms_id, 0⟩],
      failed_services := st.failed_services }
  else
    { db := res.db, nextId := res.nextId,
      multipart_messages := setBuf st.multipart_messages sender ref_num message_data,
      api_queue := api1, sms_queue := st.sms_queue, email_queue := st.email_queue,
      failed_services := st.failed_services }

/-- Ingest a list of fragments of one logical message, all reporting the
same total_parts, through handleSmsFragment in arrival order. -/
def ingestUniform (sender timestamp : String) (ref_num total_parts : Nat)
    (provider : Option String) : SysState → List (Nat × String) → SysState
  | st, [] => st
  | st, (p, t) :: rest =>
      ingestUniform sender timestamp ref_num total_parts provider
        (handleSmsFragment st sender timestamp t ref_num total_parts p provider) rest

/-- The fragments of a message with the given texts, listed in part
index order starting at index k. -/
def canonicalFrom (k : Nat) : List String → List (Nat × String)
  | [] => []
  | t :: ts => (k, t) :: canonicalFrom (k + 1) ts

/-- Fragments (1, t1), (2, t2), ... in part index order. -/
def canonicalFrags (texts : List String) : List (Nat × String) :=
  canonicalFrom 1 texts

/-- A SysState with empty table, buffer, queues and failure set. -/
def initState : SysState :=
  ⟨[], 1, emptyBuf, [], [], [], []⟩

/-- Parts accumulated so far for (sender, ref); a missing buffer entry
holds no parts. -/
def partsAt (st : SysState) (sender : String) (ref : Nat) : List (Nat × String) :=
  match getBuf st.multipart_messages sender ref with
  | some md => md.parts
  | none => []

/-- All fields of a record except the api_forwarded flag. -/
def exceptApi (r : SmsRecord) :
    Nat × String × String × Option Nat × Option Nat × String × Bool × Bool :=
  (r.id, r.sender, r.timestamp, r.reference, r.total_parts, r.message_text,
    r.sms_forwarded, r.email_forwarded)

/-- All fields of a record except the sms_forwarded flag. -/
def exceptSms (r : SmsRecord) :
    Nat × String × String × Option Nat × Option Nat × String × Bool × Bool :=
  (r.id, r.sender, r.timestamp, r.reference, r.total_parts, r.message_text,
    r.api_forwarded, r.email_forwarded)

/-- All fields of a record except the email_forwarded flag. -/
def exceptEmail (r : SmsRecord) :
    Nat × String × String × Option Nat × Option Nat × String × Bool × Bool :=
  (r.id, r.sender, r.timestamp, r.reference, r.total_parts, r.message_text,
    r.api_forwarded, r.sms_forwarded)

/-- The failure-notification text for a service and message id. -/
def failureMessage (service_name : String) (sms_id : Nat) (now : String) : String :=
  "Service " ++ service_name ++ " failed after max retries for SMS ID: "
    ++ toString sms_id ++ " at " ++ now

theorem getBuf_setBuf_self (b : Buffer) (sender : String) (ref : Nat) (md : MessageData) :
    getBuf (setBuf b sender ref md) sender ref = some md := by
  simp [getBuf, setBuf]

theorem getBuf_eraseBuf_self (b : Buffer) (sender : String) (ref : Nat) :
    getBuf (eraseBuf b sender ref) sender ref = none := by
  simp [getBuf, eraseBuf]

/-- Characterization of a non-completing fragment ingest: the preview is
persisted, the pair is appended to the buffer entry (which keeps its
previous total_parts and timestamp when it already existed), a partial
API task is enqueued exactly for part 1, and nothing else changes. -/
theorem handleSmsFragment_not_complete (st : SysState) (sender timestamp text : String)
    (ref_num total_parts part_num : Nat) (provider : Option String)
    (h : (partsAt st sender ref_num).length + 1 ≠ total_parts) :
    ∃ md' : MessageData,
      md'.parts = partsAt st sender ref_num ++ [(part_num, text)] ∧
      handleSmsFragment st sender timestamp text ref_num total_parts part_num provider =
        { db := (save_or_update_sms st.db st.nextId sender timestamp text
              (some ref_num) (some total_parts) (some part_num)).db,
          nextId := (save_or_update_sms st.db st.nextId sender timestamp text
              (some ref_num) (some total_parts) (some part_num)).nextId,
          multipart_messages := setBuf st.multipart_messages sender ref_num md',
          api_queue := if part_num = 1 then
              st.api_queue ++ [⟨sender, timestamp, text,
                some (save_or_update_sms st.db st.nextId sender timestamp text
                  (some ref_num) (some total_parts) (some part_num)).smsId, 0, provider⟩]
            else st.api_queue,
          sms_queue := st.sms_queue,
          email_queue := st.email_queue,
          failed_services := st.failed_services } := by
  unfold handleSmsFragment partsAt at *
  cases hb : getBuf st.multipart_messages sender ref_num with
  | none =>
      rw [hb] at h
      refine ⟨⟨[(part_num, text)], total_parts, timestamp⟩, by simp, ?_⟩
      simp only [hb]
      rw [if_neg (by simpa using h)]
      simp
  | some md =>
      rw [hb] at h
      refine ⟨{ md with parts := md.parts ++ [(part_num, text)] }, by simp, ?_⟩
      simp only [hb]
      rw [if_neg (by simpa using h)]

/-- Characterization of a completing fragment ingest: the preview is
persisted, the buffer entry is deleted, and the three queues receive the
sorted-and-joined complete text (the API queue after the possible
part-1 partial task). -/
theorem handleSmsFragment_complete (st : SysState) (sender timestamp text : String)
    (ref_num total_parts part_num : Nat) (provider : Option String)
    (h : (partsAt st sender ref_num).length + 1 = total_parts) :
    handleSmsFragment st sender timestamp text ref_num total_parts part_num provider =
      { db := (save_or_update_sms st.db st.nextId sender timestamp text
            (some ref_num) (some total_parts) (some part_num)).db,
        nextId := (save_or_update_sms st.db st.nextId sender timestamp text
            (some ref_num) (some total_parts) (some part_num)).nextId,
        multipart_messages := eraseBuf st.multipart_messages sender ref_num,
        api_queue := (if part_num = 1 then
            st.api_queue ++ [⟨sender, timestamp, text,
              some (save_or_update_sms st.db st.nextId sender timestamp text
                (some ref_num) (some total_parts) (some part_num)).smsId, 0, provider⟩]
          else st.api_queue) ++
          [⟨sender, timestamp,
            joinParts (sortParts (partsAt st sender ref_num ++ [(part_num, text)])),
            some (save_or_update_sms st.db st.nextId sender timestamp text
              (some ref_num) (some total_parts) (some part_num)).smsId, 0, provider⟩],
        sms_queue := st.sms_queue ++
          [⟨sender, timestamp,
            joinParts (sortParts (partsAt st sender ref_num ++ [(part_num, text)])),
            some (save_or_update_sms st.db st.nextId sender timestamp text
              (some ref_num) (some total_parts) (some part_num)).smsId, 0⟩],
        email_queue := st.email_queue ++
          [⟨sender, timestamp,
            joinParts (sortParts (partsAt st sender ref_num ++ [(part_num, text)])),
            some (save_or_update_sms st.db st.nextId sender timestamp text
              (some ref_num) (some total_parts) (some part_num)).smsId, 0⟩],
        failed_services := st.failed_services } := by
  unfold handleSmsFragment partsAt at *
  cases hb : getBuf st.multipart_messages sender ref_num with
  | none =>
      rw [hb] at h
      simp only [hb]
      rw [if_pos (by simpa using h)]
  | some md =>
      rw [hb] at h
      simp only [hb]
      rw [if_pos (by simpa using h)]

theorem mem_canonicalFrom_le (k : Nat) (ts : List String) :
    ∀ q ∈ canonicalFrom k ts, k ≤ q.1 := by
  induction ts generalizing k with
  | nil => intro q hq; cases hq
  | cons t ts ih =>
      intro q hq
      cases hq with
      | head => exact Nat.le_refl k
      | tail _ hq => exact Nat.le_trans (Nat.le_succ k) (ih (k + 1) q hq)

theorem canonicalFrom_sorted_lt (k : Nat) (ts : List String) :
    (canonicalFrom k ts).Sorted ltIdx := by
  induction ts generalizing k with
  | nil => exact List.sorted_nil
  | cons t ts ih =>
      rw [canonicalFrom, List.sorted_cons]
      exact ⟨fun q hq => Nat.lt_of_lt_of_le (Nat.lt_succ_self k) (mem_canonicalFrom_le _ _ q hq),
        ih (k + 1)⟩

theorem canonicalFrom_map_snd (k : Nat) (ts : List String) :
    (canonicalFrom k ts).map Prod.snd = ts := by
  induction ts generalizing k with
  | nil => rfl
  | cons t ts ih => simp [canonicalFrom, ih]

theorem canonicalFrom_length (k : Nat) (ts : List String) :
    (canonicalFrom k ts).length = ts.length := by
  induction ts generalizing k with
  | nil => rfl
  | cons t ts ih => simp [canonicalFrom, ih]

theorem joinParts_canonicalFrags (texts : List String) :
    joinParts (canonicalFrags texts) = String.join texts := by
  rw [joinParts, canonicalFrags, canonicalFrom_map_snd]

/-- A list sorted under the non-strict index order whose indices are
pairwise distinct is sorted under the strict index order. -/
theorem sorted_ltIdx_of_sorted_leIdx_nodup (l : List (Nat × String))
    (hs : l.Sorted leIdx) (hn : (l.map Prod.fst).Nodup) : l.Sorted ltIdx := by
  have hne : l.Pairwise (fun a b : Nat × String => a.1 ≠ b.1) := List.pairwise_map.mp hn
  exact List.Pairwise.imp₂ (fun a b hle hnee => Nat.lt_of_le_of_ne hle hnee) hs hne

/-- The stable sort of any arrangement of the canonical fragment list is
the canonical fragment list itself. -/
theorem sortParts_eq_canonical (texts : List String) (frags : List (Nat × String))
    (hperm : frags.Perm (canonicalFrags texts)) :
    sortParts frags = canonicalFrags texts := by
  have hsc : (canonicalFrags texts).Sorted ltIdx := canonicalFrom_sorted_lt 1 texts
  have hperm2 : (sortParts frags).Perm (canonicalFrags texts) :=
    (List.perm_insertionSort leIdx frags).trans hperm
  have hnc : ((canonicalFrags texts).map Prod.fst).Nodup :=
    List.pairwise_map.mpr (hsc.imp (fun h => Nat.ne_of_lt h))
  have hns : ((sortParts frags).map Prod.fst).Nodup :=
    ((hperm2.map Prod.fst).nodup_iff).mpr hnc
  have hss : (sortParts frags).Sorted ltIdx :=
    sorted_ltIdx_of_sorted_leIdx_nodup _ (List.sorted_insertionSort leIdx frags) hns
  exact List.eq_of_perm_of_sorted hperm2 hss hsc

/-- Ingesting the fragments of one message in any order, all reporting
the same total_parts N: as soon as the buffer reaches N entries the
complete text — the index-sorted concatenation of everything ingested —
is appended to the SMS and Email queues and (after any part-1 partial
task) to the API queue, under a single message id, and the buffer entry
is gone. -/
theorem ingestUniform_completes (sender timestamp : String) (ref_num N : Nat)
    (provider : Option String) :
    ∀ (todo : List (Nat × String)) (st : SysState),
      (partsAt st sender ref_num).length + todo.length = N →
      todo ≠ [] →
      ∃ (id : Nat) (pre : List ApiTask),
        (ingestUniform sender timestamp ref_num N provider st todo).sms_queue =
          st.sms_queue ++ [⟨sender, timestamp,
            joinParts (sortParts (partsAt st sender ref_num ++ todo)), some id, 0⟩] ∧
        (ingestUniform sender timestamp ref_num N provider st todo).email_queue =
          st.email_queue ++ [⟨sender, timestamp,
            joinParts (sortParts (partsAt st sender ref_num ++ todo)), some id, 0⟩] ∧
        (ingestUniform sender timestamp ref_num N provider st todo).api_queue =
          st.api_queue ++ pre ++ [⟨sender, timestamp,
            joinParts (sortParts (partsAt st sender ref_num ++ todo)), some id, 0, provider⟩] ∧
        getBuf (ingestUniform sender timestamp ref_num N provider st todo).multipart_messages
          sender ref_num = none := by
  intro todo
  induction todo with
  | nil => intro st h hne; exact absurd rfl hne
  | cons pt rest ih =>
    intro st h _
    obtain ⟨p, t⟩ := pt
    by_cases hr : rest = []
    · subst hr
      have hlen : (partsAt st sender ref_num).length + 1 = N := by simpa using h
      have hstep := handleSmsFragment_complete st sender timestamp t ref_num N p provider hlen
      refine ⟨(save_or_update_sms st.db st.nextId sender timestamp t
          (some ref_num) (some N) (some p)).smsId,
        (if p = 1 then [⟨sender, timestamp, t,
          some (save_or_update_sms st.db st.nextId sender timestamp t
            (some ref_num) (some N) (some p)).smsId, 0, provider⟩] else []), ?_, ?_, ?_, ?_⟩
      · simp only [ingestUniform, hstep]
      · simp only [ingestUniform, hstep]
      · simp only [ingestUniform, hstep]
        by_cases hp : p = 1 <;> simp [hp]
      · simp only [ingestUniform, hstep]
        exact getBuf_eraseBuf_self _ _ _
    · have hlt : (partsAt st sender ref_num).length + 1 ≠ N := by
        have h1 : 1 ≤ rest.length := by
          cases rest with
          | nil => exact absurd rfl hr
          | cons a l => simp
        simp only [List.length_cons] at h
        omega
      obtain ⟨md', hmd', hstep⟩ :=
        handleSmsFragment_not_complete st sender timestamp t ref_num N p provider hlt
      have hparts1 : partsAt (handleSmsFragment st sender timestamp t ref_num N p provider)
          sender ref_num = partsAt st sender ref_num ++ [(p, t)] := by
        rw [hstep]
        simp only [partsAt, getBuf_setBuf_self]
        exact hmd'
      have hlen1 : (partsAt (handleSmsFragment st sender timestamp t ref_num N p provider)
          sender ref_num).length + rest.length = N := by
        rw [hparts1]
        simp only [List.length_append, List.length_cons, List.length_nil] at h ⊢
        omega
      obtain ⟨id, pre', hsms, hemail, hapi, hbuf⟩ := ih _ hlen1 hr
      have hkey : partsAt (handleSmsFragment st sender timestamp t ref_num N p provider)
          sender ref_num ++ rest = partsAt st sender ref_num ++ ((p, t) :: rest) := by
        rw [hparts1, List.append_assoc]
        rfl
      rw [hkey] at hsms hemail hapi
      refine ⟨id, (if p = 1 then [⟨sender, timestamp, t,
          some (save_or_update_sms st.db st.nextId sender timestamp t
            (some ref_num) (some N) (some p)).smsId, 0, provider⟩] else []) ++ pre',
        ?_, ?_, ?_, ?_⟩
      · simp only [ingestUniform]
        rw [hsms, hstep]
      · simp only [ingestUniform]
        rw [hemail, hstep]
      · simp only [ingestUniform]
        rw [hapi, hstep]
        by_cases hp : p = 1 <;> simp [hp]
      · simp only [ingestUniform]
        exact hbuf

/-- Claim C1: for every multipart message whose fragments cover
part_index 1..N exactly once (N = total_parts), in any arrival order,
the complete text produced when the buffer holds exactly total_parts
entries is the concatenation of the fragment texts ordered by part_index
ascending, and that text is the one enqueued to the SMS, Email and API
queues (on the API queue it follows any part-1 partial task). -/
theorem multipart_reassembly_order_independent (sender timestamp : String)
    (ref_num : Nat) (provider : Option String) (st : SysState)
    (texts : List String) (frags : List (Nat × String))
    (hN : 0 < texts.length)
    (hperm : frags.Perm (canonicalFrags texts))
    (hbuf : getBuf st.multipart_messages sender ref_num = none) :
    ∃ (id : Nat) (pre : List ApiTask),
      (ingestUniform sender timestamp ref_num texts.length provider st frags).sms_queue =
        st.sms_queue ++ [⟨sender, timestamp, String.join texts, some id, 0⟩] ∧
      (ingestUniform sender timestamp ref_num texts.length provider st frags).email_queue =
        st.email_queue ++ [⟨sender, timestamp, String.join texts, some id, 0⟩] ∧
      (ingestUniform sender timestamp ref_num texts.length provider st frags).api_queue =
        st.api_queue ++ pre ++ [⟨sender, timestamp, String.join texts, some id, 0, provider⟩] ∧
      getBuf (ingestUniform sender timestamp ref_num texts.length provider st
        frags).multipart_messages sender ref_num = none := by
  have hp0 : partsAt st sender ref_num = [] := by
    unfold partsAt
    rw [hbuf]
  have hflen : frags.length = texts.length := by
    rw [hperm.length_eq, canonicalFrags, canonicalFrom_length]
  have hfne : frags ≠ [] := by
    intro hc
    rw [hc] at hflen
    simp at hflen
    omega
  have hsum : (partsAt st sender ref_num).length + frags.length = texts.length := by
    rw [hp0, hflen]
    simp
  obtain ⟨id, pre, hsms, hemail, hapi, hb⟩ :=
    ingestUniform_completes sender timestamp ref_num texts.length provider frags st hsum hfne
  rw [hp0, List.nil_append, sortParts_eq_canonical texts frags hperm,
    joinParts_canonicalFrags] at hsms hemail hapi
  exact ⟨id, pre, hsms, hemail, hapi, hb⟩

/-- Witness for C1: the two-part message of Scenario B, fragments
arriving out of order, reassembles to "hello world" on all queues. -/
theorem multipart_reassembly_order_independent_witness :
    ∃ (id : Nat) (pre : List ApiTask),
      (ingestUniform "S" "t" 7 (["hello ", "world"].length) none initState
        [(2, "world"), (1, "hello ")]).sms_queue =
        initState.sms_queue ++ [⟨"S", "t", String.join ["hello ", "world"], some id, 0⟩] ∧
      (ingestUniform "S" "t" 7 (["hello ", "world"].length) none initState
        [(2, "world"), (1, "hello ")]).email_queue =
        initState.email_queue ++ [⟨"S", "t", String.join ["hello ", "world"], some id, 0⟩] ∧
      (ingestUniform "S" "t" 7 (["hello ", "world"].length) none initState
        [(2, "world"), (1, "hello ")]).api_queue =
        initState.api_queue ++ pre ++
          [⟨"S", "t", String.join ["hello ", "world"], some id, 0, none⟩] ∧
      getBuf (ingestUniform "S" "t" 7 (["hello ", "world"].length) none initState
        [(2, "world"), (1, "hello ")]).multipart_messages "S" 7 = none :=
  multipart_reassembly_order_independent "S" "t" 7 none initState
    ["hello ", "world"] [(2, "world"), (1, "hello ")]
    (by decide) (by decide) (by decide)

theorem set_api_flag_idem (sms_id : Nat) (r : SmsRecord) :
    set_api_flag sms_id (set_api_flag sms_id r) = set_api_flag sms_id r := by
  unfold set_api_flag
  by_cases h : r.id = sms_id <;> simp [h]

theorem set_sms_flag_idem (sms_id : Nat) (r : SmsRecord) :
    set_sms_flag sms_id (set_sms_flag sms_id r) = set_sms_flag sms_id r := by
  unfold set_sms_flag
  by_cases h : r.id = sms_id <;> simp [h]

theorem set_email_flag_idem (sms_id : Nat) (r : SmsRecord) :
    set_email_flag sms_id (set_email_flag sms_id r) = set_email_flag sms_id r := by
  unfold set_email_flag
  by_cases h : r.id = sms_id <;> simp [h]

theorem set_sms_flag_api_flag_comm (sms_id : Nat) (r : SmsRecord) :
    set_sms_flag sms_id (set_api_flag sms_id r) = set_api_flag sms_id (set_sms_flag sms_id r) := by
  unfold set_api_flag set_sms_flag
  by_cases h : r.id = sms_id <;> simp [h]

theorem set_email_flag_api_flag_comm (sms_id : Nat) (r : SmsRecord) :
    set_email_flag sms_id (set_api_flag sms_id r) =
      set_api_flag sms_id (set_email_flag sms_id r) := by
  unfold set_api_flag set_email_flag
  by_cases h : r.id = sms_id <;> simp [h]

theorem set_email_flag_sms_flag_comm (sms_id : Nat) (r : SmsRecord) :
    set_email_flag sms_id (set_sms_flag sms_id r) =
      set_sms_flag sms_id (set_email_flag sms_id r) := by
  unfold set_sms_flag set_email_flag
  by_cases h : r.id = sms_id <;> simp [h]

/-- Claim C9: mark_as_forwarded is idempotent — for every table, record
id and requested combination of channel flags, calling it twice leaves
the table exactly as calling it once — and a call for one channel
changes no column of any row other than that channel's forwarded flag. -/
theorem mark_as_forwarded_idempotent_and_frame (db : List SmsRecord) (sms_id : Nat) :
    (∀ (a s e : Bool),
      mark_as_forwarded (mark_as_forwarded db sms_id a s e) sms_id a s e =
        mark_as_forwarded db sms_id a s e) ∧
    (mark_as_forwarded db sms_id true false false).map exceptApi = db.map exceptApi ∧
    (mark_as_forwarded db sms_id false true false).map exceptSms = db.map exceptSms ∧
    (mark_as_forwarded db sms_id false false true).map exceptEmail = db.map exceptEmail := by
  refine ⟨?_, ?_, ?_, ?_⟩
  · intro a s e
    cases a <;> cases s <;> cases e <;>
      simp [mark_as_forwarded, List.map_map, Function.comp] <;>
      intro r _ <;>
      simp [set_api_flag_idem, set_sms_flag_idem, set_email_flag_idem,
        set_sms_flag_api_flag_comm, set_email_flag_api_flag_comm,
        set_email_flag_sms_flag_comm]
  · simp [mark_as_forwarded, List.map_map]
    intro r _
    by_cases h : r.id = sms_id <;> simp [exceptApi, set_api_flag, h]
  · simp [mark_as_forwarded, List.map_map]
    intro r _
    by_cases h : r.id = sms_id <;> simp [exceptSms, set_sms_flag, h]
  · simp [mark_as_forwarded, List.map_map]
    intro r _
    by_cases h : r.id = sms_id <;> simp [exceptEmail, set_email_flag, h]

/-- notify_failure pushes the notification task exactly onto the queues
of channels that are configured non-empty and not currently in
failed_services, and touches nothing else. -/
theorem notify_failure_spec (cfg : Config) (now : String) (st : SysState)
    (service_name : String) (sms_id : Nat) :
    (notify_failure cfg now st service_name sms_id).sms_queue =
      st.sms_queue ++ (if "SMS" ∉ st.failed_services ∧ cfg.sms_recipients ≠ [] then
        [⟨"System", now, failureMessage service_name sms_id now, none, 0⟩] else []) ∧
    (notify_failure cfg now st service_name sms_id).email_queue =
      st.email_queue ++ (if "Email" ∉ st.failed_services ∧ cfg.email_recipients ≠ [] then
        [⟨"System", now, failureMessage service_name sms_id now, none, 0⟩] else []) ∧
    (notify_failure cfg now st service_name sms_id).api_queue =
      st.api_queue ++ (if "API" ∉ st.failed_services ∧ cfg.api_providers ≠ [] then
        [⟨"System", now, failureMessage service_name sms_id now, none, 0, none⟩] else []) ∧
    (notify_failure cfg now st service_name sms_id).failed_services = st.failed_services ∧
    (notify_failure cfg now st service_name sms_id).db = st.db := by
  unfold notify_failure failureMessage
  by_cases h1 : "SMS" ∉ st.failed_services ∧ cfg.sms_recipients ≠ [] <;>
    by_cases h2 : "Email" ∉ st.failed_services ∧ cfg.email_recipients ≠ [] <;>
    by_cases h3 : "API" ∉ st.failed_services ∧ cfg.api_providers ≠ [] <;>
    simp [h1, h2, h3]

/-- API worker, failing attempt below the cap: the task is re-enqueued
at the tail of api_queue with retry_count incremented, the worker sleeps
5 * (incremented count) seconds, and nothing else changes. -/
theorem api_step_fail_retry (cfg : Config) (http : Provider → Bool) (now : String)
    (st : SysState) (task : ApiTask) (rest : List ApiTask)
    (hq : st.api_queue = task :: rest)
    (hp : cfg.api_providers ≠ [])
    (hsend : send_to_api_providers http cfg.api_providers task.provider = false)
    (hcap : task.retry_count + 1 < api_max_retries cfg.api_providers (cfg.max_retries.getD 3)) :
    (api_worker_step cfg http now st).2 = some (5 * (task.retry_count + 1)) ∧
    (api_worker_step cfg http now st).1.api_queue =
      rest ++ [{ task with retry_count := task.retry_count + 1 }] ∧
    (api_worker_step cfg http now st).1.sms_queue = st.sms_queue ∧
    (api_worker_step cfg http now st).1.email_queue = st.email_queue ∧
    (api_worker_step cfg http now st).1.failed_services = st.failed_services ∧
    (api_worker_step cfg http now st).1.db = st.db := by
  simp only [api_worker_step, hq]
  rw [if_neg hp, hsend]
  simp only [Bool.false_eq_true, if_false]
  rw [if_pos hcap]
  simp

/-- API worker, failing attempt at or above the cap: the worker does not
sleep and does not re-enqueue the task; the channel is added to
failed_services if absent, in which case a notification task goes to the
SMS and Email queues (when configured and not failed) provided the task
carries a message id; the API queue itself never receives the
notification. -/
theorem api_step_fail_terminal (cfg : Config) (http : Provider → Bool) (now : String)
    (st : SysState) (task : ApiTask) (rest : List ApiTask)
    (hq : st.api_queue = task :: rest)
    (hp : cfg.api_providers ≠ [])
    (hsend : send_to_api_providers http cfg.api_providers task.provider = false)
    (hcap : ¬ task.retry_count + 1 < api_max_retries cfg.api_providers (cfg.max_retries.getD 3)) :
    (api_worker_step cfg http now st).2 = none ∧
    (api_worker_step cfg http now st).1.api_queue = rest ∧
    (api_worker_step cfg http now st).1.db = st.db ∧
    ("API" ∈ st.failed_services →
      (api_worker_step cfg http now st).1.failed_services = st.failed_services ∧
      (api_worker_step cfg http now st).1.sms_queue = st.sms_queue ∧
      (api_worker_step cfg http now st).1.email_queue = st.email_queue) ∧
    ("API" ∉ st.failed_services →
      (api_worker_step cfg http now st).1.failed_services = st.failed_services ++ ["API"] ∧
      (task.sms_id = none →
        (api_worker_step cfg http now st).1.sms_queue = st.sms_queue ∧
        (api_worker_step cfg http now st).1.email_queue = st.email_queue) ∧
      (∀ id, task.sms_id = some id →
        (api_worker_step cfg http now st).1.sms_queue = st.sms_queue ++
          (if "SMS" ∉ st.failed_services ∧ cfg.sms_recipients ≠ [] then
            [⟨"System", now, failureMessage "API" id now, none, 0⟩] else []) ∧
        (api_worker_step cfg http now st).1.email_queue = st.email_queue ++
          (if "Email" ∉ st.failed_services ∧ cfg.email_recipients ≠ [] then
            [⟨"System", now, failureMessage "API" id now, none, 0⟩] else []))) := by
  simp only [api_worker_step, hq]
  rw [if_neg hp, hsend]
  simp only [Bool.false_eq_true, if_false]
  rw [if_neg hcap]
  by_cases hf : "API" ∈ st.failed_services
  · rw [if_neg (by simpa using hf)]
    simp [hf]
  · rw [if_pos (by simpa using hf)]
    cases hid : task.sms_id with
    | none => simp [hf]
    | some id =>
        dsimp only
        obtain ⟨h1, h2, h3, h4, h5⟩ := notify_failure_spec cfg now
          { st with api_queue := rest, failed_services := st.failed_services ++ ["API"] }
          "API" id
        dsimp only at h1 h2 h3 h4 h5
        refine ⟨rfl, ?_, h5, ?_, ?_⟩
        · rw [h3]
          simp
        · intro hc
          exact absurd hc hf
        · intro _
          refine ⟨h4, ?_, ?_⟩
          · intro hnone
            cases hnone
          · intro id2 hid2
            injection hid2 with hh
            subst hh
            constructor
            · rw [h1]
              simp
            · rw [h2]
              simp

/-- SMS worker, failing attempt below the cap: re-enqueue at the tail
with incremented retry_count and sleep 5 * (incremented count). -/
theorem sms_step_fail_retry (cfg : Config) (modemSend : String → Bool) (now : String)
    (recipients : List String) (st : SysState) (task : FwdTask) (rest : List FwdTask)
    (hq : st.sms_queue = task :: rest)
    (hp : recipients ≠ [])
    (hsend : recipients.any modemSend = false)
    (hcap : task.retry_count + 1 < cfg.sms_max_retries.getD (cfg.max_retries.getD 3)) :
    (sms_worker_step cfg modemSend now recipients st).2 = some (5 * (task.retry_count + 1)) ∧
    (sms_worker_step cfg modemSend now recipients st).1.sms_queue =
      rest ++ [{ task with retry_count := task.retry_count + 1 }] ∧
    (sms_worker_step cfg modemSend now recipients st).1.api_queue = st.api_queue ∧
    (sms_worker_step cfg modemSend now recipients st).1.email_queue = st.email_queue ∧
    (sms_worker_step cfg modemSend now recipients st).1.failed_services = st.failed_services ∧
    (sms_worker_step cfg modemSend now recipients st).1.db = st.db := by
  simp only [sms_worker_step, hq]
  rw [if_neg hp, hsend]
  simp only [Bool.false_eq_true, if_false]
  rw [if_pos hcap]
  simp

/-- SMS worker, failing attempt at or above the cap: no sleep, no
re-enqueue; the channel is added to failed_services if absent, and a
notification goes to the Email and API queues (when configured and not
failed) provided the task carries a message id; the SMS queue itself
never receives the notification. -/
theorem sms_step_fail_terminal (cfg : Config) (modemSend : String → Bool) (now : String)
    (recipients : List String) (st : SysState) (task : FwdTask) (rest : List FwdTask)
    (hq : st.sms_queue = task :: rest)
    (hp : recipients ≠ [])
    (hsend : recipients.any modemSend = false)
    (hcap : ¬ task.retry_count + 1 < cfg.sms_max_retries.getD (cfg.max_retries.getD 3)) :
    (sms_worker_step cfg modemSend now recipients st).2 = none ∧
    (sms_worker_step cfg modemSend now recipients st).1.sms_queue = rest ∧
    (sms_worker_step cfg modemSend now recipients st).1.db = st.db ∧
    ("SMS" ∈ st.failed_services →
      (sms_worker_step cfg modemSend now recipients st).1.failed_services = st.failed_services ∧
      (sms_worker_step cfg modemSend now recipients st).1.api_queue = st.api_queue ∧
      (sms_worker_step cfg modemSend now recipients st).1.email_queue = st.email_queue) ∧
    ("SMS" ∉ st.failed_services →
      (sms_worker_step cfg modemSend now recipients st).1.failed_services =
        st.failed_services ++ ["SMS"] ∧
      (task.sms_id = none →
        (sms_worker_step cfg modemSend now recipients st).1.api_queue = st.api_queue ∧
        (sms_worker_step cfg modemSend now recipients st).1.email_queue = st.email_queue) ∧
      (∀ id, task.sms_id = some id →
        (sms_worker_step cfg modemSend now recipients st).1.api_queue = st.api_queue ++
          (if "API" ∉ st.failed_services ∧ cfg.api_providers ≠ [] then
            [⟨"System", now, failureMessage "SMS" id now, none, 0, none⟩] else []) ∧
        (sms_worker_step cfg modemSend now recipients st).1.email_queue = st.email_queue ++
          (if "Email" ∉ st.failed_services ∧ cfg.email_recipients ≠ [] then
            [⟨"System", now, failureMessage "SMS" id now, none, 0⟩] else []))) := by
  simp only [sms_worker_step, hq]
  rw [if_neg hp, hsend]
  simp only [Bool.false_eq_true, if_false]
  rw [if_neg hcap]
  by_cases hf : "SMS" ∈ st.failed_services
  · rw [if_neg (by simpa using hf)]
    simp [hf]
  · rw [if_pos (by simpa using hf)]
    cases hid : task.sms_id with
    | none => simp [hf]
    | some id =>
        dsimp only
        obtain ⟨h1, h2, h3, h4, h5⟩ := notify_failure_spec cfg now
          { st with sms_queue := rest, failed_services := st.failed_services ++ ["SMS"] }
          "SMS" id
        dsimp only at h1 h2 h3 h4 h5
        refine ⟨rfl, ?_, h5, ?_, ?_⟩
        · rw [h1]
          simp
        · intro hc
          exact absurd hc hf
        · intro _
          refine ⟨h4, ?_, ?_⟩
          · intro hnone
            cases hnone
          · intro id2 hid2
            injection hid2 with hh
            subst hh
            constructor
            · rw [h3]
              simp
            · rw [h2]
              simp

/-- Email worker, failing attempt below the cap: re-enqueue at the tail
with incremented retry_count and sleep 5 * (incremented count). -/
theorem email_step_fail_retry (cfg : Config) (smtpOk : Bool) (now : String)
    (st : SysState) (task : FwdTask) (rest : List FwdTask)
    (hq : st.email_queue = task :: rest)
    (hp : cfg.email_recipients ≠ [])
    (hsend : smtpOk = false)
    (hcap : task.retry_count + 1 < cfg.email_max_retries.getD (cfg.max_retries.getD 3)) :
    (email_worker_step cfg smtpOk now st).2 = some (5 * (task.retry_count + 1)) ∧
    (email_worker_step cfg smtpOk now st).1.email_queue =
      rest ++ [{ task with retry_count := task.retry_count + 1 }] ∧
    (email_worker_step cfg smtpOk now st).1.api_queue = st.api_queue ∧
    (email_worker_step cfg smtpOk now st).1.sms_queue = st.sms_queue ∧
    (email_worker_step cfg smtpOk now st).1.failed_services = st.failed_services ∧
    (email_worker_step cfg smtpOk now st).1.db = st.db := by
  subst hsend
  simp only [email_worker_step, hq]
  rw [if_neg hp]
  simp only [Bool.false_eq_true, if_false]
  rw [if_pos hcap]
  simp

/-- Email worker, failing attempt at or above the cap: no sleep, no
re-enqueue; the channel is added to failed_services if absent, and a
notification goes to the SMS and API queues (when configured and not
failed) provided the task carries a message id; the Email queue itself
never receives the notification. -/
theorem email_step_fail_terminal (cfg : Config) (smtpOk : Bool) (now : String)
    (st : SysState) (task : FwdTask) (rest : List FwdTask)
    (hq : st.email_queue = task :: rest)
    (hp : cfg.email_recipients ≠ [])
    (hsend : smtpOk = false)
    (hcap : ¬ task.retry_count + 1 < cfg.email_max_retries.getD (cfg.max_retries.getD 3)) :
    (email_worker_step cfg smtpOk now st).2 = none ∧
    (email_worker_step cfg smtpOk now st).1.email_queue = rest ∧
    (email_worker_step cfg smtpOk now st).1.db = st.db ∧
    ("Email" ∈ st.failed_services →
      (email_worker_step cfg smtpOk now st).1.failed_services = st.failed_services ∧
      (email_worker_step cfg smtpOk now st).1.api_queue = st.api_queue ∧
      (email_worker_step cfg smtpOk now st).1.sms_queue = st.sms_queue) ∧
    ("Email" ∉ st.failed_services →
      (email_worker_step cfg smtpOk now st).1.failed_services =
        st.failed_services ++ ["Email"] ∧
      (task.sms_id = none →
        (email_worker_step cfg smtpOk now st).1.api_queue = st.api_queue ∧
        (email_worker_step cfg smtpOk now st).1.sms_queue = st.sms_queue) ∧
      (∀ id, task.sms_id = some id →
        (email_worker_step cfg smtpOk now st).1.api_queue = st.api_queue ++
          (if "API" ∉ st.failed_services ∧ cfg.api_providers ≠ [] then
            [⟨"System", now, failureMessage "Email" id now, none, 0, none⟩] else []) ∧
        (email_worker_step cfg smtpOk now st).1.sms_queue = st.sms_queue ++
          (if "SMS" ∉ st.failed_services ∧ cfg.sms_recipients ≠ [] then
            [⟨"System", now, failureMessage "Email" id now, none, 0⟩] else []))) := by
  subst hsend
  simp only [email_worker_step, hq]
  rw [if_neg hp]
  simp only [Bool.false_eq_true, if_false]
  rw [if_neg hcap]
  by_cases hf : "Email" ∈ st.failed_services
  · rw [if_neg (by simpa using hf)]
    simp [hf]
  · rw [if_pos (by simpa using hf)]
    cases hid : task.sms_id with
    | none => simp [hf]
    | some id =>
        dsimp only
        obtain ⟨h1, h2, h3, h4, h5⟩ := notify_failure_spec cfg now
          { st with email_queue := rest, failed_services := st.failed_services ++ ["Email"] }
          "Email" id
        dsimp only at h1 h2 h3 h4 h5
        refine ⟨rfl, ?_, h5, ?_, ?_⟩
        · rw [h2]
          simp
        · intro hc
          exact absurd hc hf
        · intro _
          refine ⟨h4, ?_, ?_⟩
          · intro hnone
            cases hnone
          · intro id2 hid2
            injection hid2 with hh
            subst hh
            constructor
            · rw [h3]
              simp
            · rw [h1]
              simp

theorem api_worker_run_succ (cfg : Config) (http : Provider → Bool) (now : String)
    (k : Nat) (st : SysState) :
    api_worker_run cfg http now (k + 1) st =
      ((api_worker_run cfg http now k (api_worker_step cfg http now st).1).1,
       (match (api_worker_step cfg http now st).2 with
        | some d => [d]
        | none => []) ++
         (api_worker_run cfg http now k (api_worker_step cfg http now st).1).2) := by
  simp only [api_worker_run]

/-- Running the API worker on a queue holding a single task while every
send attempt fails: with the cap m reached after k more failures, the
worker performs k iterations, sleeping the linear backoff sequence and
ending with an empty API queue (the task is dropped terminally, and the
failure notification never targets the API queue itself). -/
theorem api_worker_run_all_fail (cfg : Config) (http : Provider → Bool) (now : String)
    (hp : cfg.api_providers ≠ [])
    (hfail : ∀ hint, send_to_api_providers http cfg.api_providers hint = false) :
    ∀ (k : Nat) (st : SysState) (task : ApiTask),
      st.api_queue = [task] →
      task.retry_count + k = api_max_retries cfg.api_providers (cfg.max_retries.getD 3) →
      1 ≤ k →
      (api_worker_run cfg http now k st).1.api_queue = [] ∧
      (api_worker_run cfg http now k st).2 =
        (List.range (k - 1)).map (fun i => 5 * (task.retry_count + 1 + i)) := by
  intro k
  induction k with
  | zero => intro st task _ _ hk; cases hk
  | succ k ih =>
    intro st task hq hm _
    cases k with
    | zero =>
        have hcap : ¬ task.retry_count + 1 <
            api_max_retries cfg.api_providers (cfg.max_retries.getD 3) := by omega
        obtain ⟨hsleep, hqueue, _, _, _⟩ :=
          api_step_fail_terminal cfg http now st task [] hq hp (hfail task.provider) hcap
        rw [api_worker_run_succ, hsleep]
        simp only [api_worker_run]
        exact ⟨hqueue, by simp⟩
    | succ k' =>
        have hcap : task.retry_count + 1 <
            api_max_retries cfg.api_providers (cfg.max_retries.getD 3) := by omega
        obtain ⟨hsleep, hqueue, _, _, _, _⟩ :=
          api_step_fail_retry cfg http now st task [] hq hp (hfail task.provider) hcap
        rw [api_worker_run_succ, hsleep]
        have hih := ih (api_worker_step cfg http now st).1
          { task with retry_count := task.retry_count + 1 }
          (by rw [hqueue]; simp) (by simp; omega) (by omega)
        refine ⟨hih.1, ?_⟩
        rw [hih.2]
        simp only [List.singleton_append]
        rw [show k' + 1 + 1 - 1 = (k' + 1 - 1) + 1 by omega, List.range_succ_eq_map,
          List.map_cons, List.map_map]
        refine congrArg₂ List.cons (by simp) ?_
        apply List.map_congr_left
        intro i _
        simp only [Function.comp_apply]
        omega

theorem attempt_provider_config_error (http : Provider → Bool) (p : Provider)
    (h1 : methodOf p ≠ "POST") (h2 : methodOf p ≠ "GET") (h3 : methodOf p ≠ "PUT") :
    attempt_provider http p = .configError ("Unsupported method: " ++ methodOf p) := by
  unfold attempt_provider
  rw [if_neg h1, if_neg h2, if_neg h3]

theorem send_foldl_no_success (http : Provider → Bool) :
    ∀ (l : List Provider) (acc : Bool),
      (∀ p ∈ l, attempt_provider http p ≠ .success) →
      l.foldl (fun success p =>
        match attempt_provider http p with
        | .success => true
        | .transportError => success
        | .configError _ => success) acc = acc := by
  intro l
  induction l with
  | nil => intro acc _; rfl
  | cons p l ih =>
      intro acc h
      rw [List.foldl_cons]
      have hp := h p (by simp)
      cases hap : attempt_provider http p with
      | success => exact absurd hap hp
      | transportError => exact ih acc (fun q hq => h q (by simp [hq]))
      | configError m => exact ih acc (fun q hq => h q (by simp [hq]))

/-- If no selected provider attempt can succeed (for example because
every selected provider has an unsupported method, or the transport is
down), send_to_api_providers returns False. -/
theorem send_to_api_providers_eq_false (http : Provider → Bool) (ps : List Provider)
    (hint : Option String)
    (h : ∀ p ∈ selected_providers ps hint, attempt_provider http p ≠ .success) :
    send_to_api_providers http ps hint = false := by
  unfold send_to_api_providers
  by_cases hs : selected_providers ps hint = []
  · rw [if_pos hs]
  · rw [if_neg hs]
    exact send_foldl_no_success http _ false h

theorem attempt_provider_http_false_ne_success (p : Provider) :
    attempt_provider (fun _ => false) p ≠ .success := by
  unfold attempt_provider
  by_cases h1 : methodOf p = "POST" <;> by_cases h2 : methodOf p = "GET" <;>
    by_cases h3 : methodOf p = "PUT" <;> simp [h1, h2, h3]

theorem send_http_false (ps : List Provider) (hint : Option String) :
    send_to_api_providers (fun _ => false) ps hint = false :=
  send_to_api_providers_eq_false _ ps hint
    (fun p _ => attempt_provider_http_false_ne_success p)

/-- Claim C2: for every channel and delivery task, a failing send
attempt below the channel cap increments retry_count, sleeps
5 * (incremented retry_count) seconds (linear 5s, 10s, 15s, ...), and
re-enqueues the task at the tail of the same queue; a failing attempt
reaching the cap drops the task terminally — no sleep, no re-enqueue —
so a task whose sends always fail is retried with delays
5, 10, ..., 5*(cap-1) and then leaves its queue for good. -/
theorem retry_backoff_and_terminal_failure :
    (∀ (cfg : Config) (http : Provider → Bool) (now : String) (st : SysState)
        (task : ApiTask) (rest : List ApiTask),
      st.api_queue = task :: rest →
      cfg.api_providers ≠ [] →
      send_to_api_providers http cfg.api_providers task.provider = false →
      (task.retry_count + 1 < api_max_retries cfg.api_providers (cfg.max_retries.getD 3) →
        (api_worker_step cfg http now st).2 = some (5 * (task.retry_count + 1)) ∧
        (api_worker_step cfg http now st).1.api_queue =
          rest ++ [{ task with retry_count := task.retry_count + 1 }]) ∧
      (¬ task.retry_count + 1 < api_max_retries cfg.api_providers (cfg.max_retries.getD 3) →
        (api_worker_step cfg http now st).2 = none ∧
        (api_worker_step cfg http now st).1.api_queue = rest)) ∧
    (∀ (cfg : Config) (modemSend : String → Bool) (now : String) (recipients : List String)
        (st : SysState) (task : FwdTask) (rest : List FwdTask),
      st.sms_queue = task :: rest →
      recipients ≠ [] →
      recipients.any modemSend = false →
      (task.retry_count + 1 < cfg.sms_max_retries.getD (cfg.max_retries.getD 3) →
        (sms_worker_step cfg modemSend now recipients st).2 = some (5 * (task.retry_count + 1)) ∧
        (sms_worker_step cfg modemSend now recipients st).1.sms_queue =
          rest ++ [{ task with retry_count := task.retry_count + 1 }]) ∧
      (¬ task.retry_count + 1 < cfg.sms_max_retries.getD (cfg.max_retries.getD 3) →
        (sms_worker_step cfg modemSend now recipients st).2 = none ∧
        (sms_worker_step cfg modemSend now recipients st).1.sms_queue = rest)) ∧
    (∀ (cfg : Config) (now : String) (st : SysState) (task : FwdTask) (rest : List FwdTask),
      st.email_queue = task :: rest →
      cfg.email_recipients ≠ [] →
      (task.retry_count + 1 < cfg.email_max_retries.getD (cfg.max_retries.getD 3) →
        (email_worker_step cfg false now st).2 = some (5 * (task.retry_count + 1)) ∧
        (email_worker_step cfg false now st).1.email_queue =
          rest ++ [{ task with retry_count := task.retry_count + 1 }]) ∧
      (¬ task.retry_count + 1 < cfg.email_max_retries.getD (cfg.max_retries.getD 3) →
        (email_worker_step cfg false now st).2 = none ∧
        (email_worker_step cfg false now st).1.email_queue = rest)) ∧
    (∀ (cfg : Config) (http : Provider → Bool) (now : String) (st : SysState) (task : ApiTask),
      cfg.api_providers ≠ [] →
      (∀ hint, send_to_api_providers http cfg.api_providers hint = false) →
      st.api_queue = [task] →
      task.retry_count = 0 →
      1 ≤ api_max_retries cfg.api_providers (cfg.max_retries.getD 3) →
      (api_worker_run cfg http now
        (api_max_retries cfg.api_providers (cfg.max_retries.getD 3)) st).1.api_queue = [] ∧
      (api_worker_run cfg http now
        (api_max_retries cfg.api_providers (cfg.max_retries.getD 3)) st).2 =
        (List.range (api_max_retries cfg.api_providers (cfg.max_retries.getD 3) - 1)).map
          (fun i => 5 * (i + 1))) := by
  refine ⟨?_, ?_, ?_, ?_⟩
  · intro cfg http now st task rest hq hp hsend
    constructor
    · intro hcap
      obtain ⟨h1, h2, _⟩ := api_step_fail_retry cfg http now st task rest hq hp hsend hcap
      exact ⟨h1, h2⟩
    · intro hcap
      obtain ⟨h1, h2, _⟩ := api_step_fail_terminal cfg http now st task rest hq hp hsend hcap
      exact ⟨h1, h2⟩
  · intro cfg modemSend now recipients st task rest hq hp hsend
    constructor
    · intro hcap
      obtain ⟨h1, h2, _⟩ :=
        sms_step_fail_retry cfg modemSend now recipients st task rest hq hp hsend hcap
      exact ⟨h1, h2⟩
    · intro hcap
      obtain ⟨h1, h2, _⟩ :=
        sms_step_fail_terminal cfg modemSend now recipients st task rest hq hp hsend hcap
      exact ⟨h1, h2⟩
  · intro cfg now st task rest hq hp
    constructor
    · intro hcap
      obtain ⟨h1, h2, _⟩ := email_step_fail_retry cfg false now st task rest hq hp rfl hcap
      exact ⟨h1, h2⟩
    · intro hcap
      obtain ⟨h1, h2, _⟩ := email_step_fail_terminal cfg false now st task rest hq hp rfl hcap
      exact ⟨h1, h2⟩
  · intro cfg http now st task hp hfail hq hr0 hm
    have := api_worker_run_all_fail cfg http now hp hfail
      (api_max_retries cfg.api_providers (cfg.max_retries.getD 3)) st task hq (by omega) hm
    rw [hr0] at this
    refine ⟨this.1, ?_⟩
    rw [this.2]
    apply List.map_congr_left
    intro i _
    omega

/-- Witness for C2: a single-provider API configuration with cap 3 and a
dead transport retries a fresh task with delays 5 s then 10 s, then
drops it; the first failing attempt also shows the single-step retry
shape. -/
theorem retry_backoff_and_terminal_failure_witness :
    ((api_worker_step ⟨["r"], ["e"], [⟨"h", true, some "POST", some 3⟩], none, none, none⟩
        (fun _ => false) "now"
        ⟨[], 1, emptyBuf, [⟨"+1", "t", "m", some 1, 0, none⟩], [], [], []⟩).2 = some 5 ∧
      (api_worker_step ⟨["r"], ["e"], [⟨"h", true, some "POST", some 3⟩], none, none, none⟩
        (fun _ => false) "now"
        ⟨[], 1, emptyBuf, [⟨"+1", "t", "m", some 1, 0, none⟩], [], [], []⟩).1.api_queue =
        [] ++ [⟨"+1", "t", "m", some 1, 1, none⟩]) ∧
    (api_worker_run ⟨["r"], ["e"], [⟨"h", true, some "POST", some 3⟩], none, none, none⟩
        (fun _ => false) "now" 3
        ⟨[], 1, emptyBuf, [⟨"+1", "t", "m", some 1, 0, none⟩], [], [], []⟩).1.api_queue = [] ∧
    (api_worker_run ⟨["r"], ["e"], [⟨"h", true, some "POST", some 3⟩], none, none, none⟩
        (fun _ => false) "now" 3
        ⟨[], 1, emptyBuf, [⟨"+1", "t", "m", some 1, 0, none⟩], [], [], []⟩).2 =
      (List.range 2).map (fun i => 5 * (i + 1)) :=
  ⟨(retry_backoff_and_terminal_failure.1
      ⟨["r"], ["e"], [⟨"h", true, some "POST", some 3⟩], none, none, none⟩
      (fun _ => false) "now"
      ⟨[], 1, emptyBuf, [⟨"+1", "t", "m", some 1, 0, none⟩], [], [], []⟩
      ⟨"+1", "t", "m", some 1, 0, none⟩ [] rfl (by decide)
      (send_http_false _ _)).1 (by decide),
   (retry_backoff_and_terminal_failure.2.2.2
      ⟨["r"], ["e"], [⟨"h", true, some "POST", some 3⟩], none, none, none⟩
      (fun _ => false) "now"
      ⟨[], 1, emptyBuf, [⟨"+1", "t", "m", some 1, 0, none⟩], [], [], []⟩
      ⟨"+1", "t", "m", some 1, 0, none⟩ (by decide)
      (fun hint => send_http_false _ hint) rfl rfl (by decide)).1,
   (retry_backoff_and_terminal_failure.2.2.2
      ⟨["r"], ["e"], [⟨"h", true, some "POST", some 3⟩], none, none, none⟩
      (fun _ => false) "now"
      ⟨[], 1, emptyBuf, [⟨"+1", "t", "m", some 1, 0, none⟩], [], [], []⟩
      ⟨"+1", "t", "m", some 1, 0, none⟩ (by decide)
      (fun hint => send_http_false _ hint) rfl rfl (by decide)).2⟩

/-- Counterexample to claim C3: a default provider configured with
method "DELETE", an HTTP transport that would succeed, and a fresh task.
The unsupported-method ValueError is raised inside the per-provider try
block and caught by its catch-all except handler, so send_to_api_providers
returns False instead of propagating a configuration error, and the
worker treats the attempt as a retryable failure: the task IS re-enqueued
with retry_count 1 after a 5 second backoff, contradicting "no retry of
the task occurs". -/
theorem unsupported_method_retried_counterexample :
    attempt_provider (fun _ => true) ⟨"hook", true, some "DELETE", none⟩ =
      .configError "Unsupported method: DELETE" ∧
    send_to_api_providers (fun _ => true) [⟨"hook", true, some "DELETE", none⟩] none = false ∧
    (api_worker_step ⟨[], [], [⟨"hook", true, some "DELETE", none⟩], none, none, none⟩
      (fun _ => true) "now"
      ⟨[], 1, emptyBuf, [⟨"+1", "t", "hi", some 1, 0, none⟩], [], [], []⟩).1.api_queue =
      [⟨"+1", "t", "hi", some 1, 1, none⟩] ∧
    (api_worker_step ⟨[], [], [⟨"hook", true, some "DELETE", none⟩], none, none, none⟩
      (fun _ => true) "now"
      ⟨[], 1, emptyBuf, [⟨"+1", "t", "hi", some 1, 0, none⟩], [], [], []⟩).2 = some 5 := by
  refine ⟨by decide, by decide, by decide, by decide⟩

/-- Amended claim C3: an unsupported configured HTTP method raises
ValueError inside the per-provider try block, where the catch-all except
swallows it; the attempt is recorded as a failed send exactly like a
transport failure (send_to_api_providers returns False whenever every
selected provider has an unsupported method), and the task is then
retried by the worker up to the channel cap rather than failing
synchronously. -/
theorem unsupported_method_swallowed_and_retried (http : Provider → Bool) (p : Provider)
    (h1 : methodOf p ≠ "POST") (h2 : methodOf p ≠ "GET") (h3 : methodOf p ≠ "PUT") :
    attempt_provider http p = .configError ("Unsupported method: " ++ methodOf p) ∧
    (∀ (ps : List Provider) (hint : Option String),
      (∀ q ∈ selected_providers ps hint,
        methodOf q ≠ "POST" ∧ methodOf q ≠ "GET" ∧ methodOf q ≠ "PUT") →
      send_to_api_providers http ps hint = false) ∧
    (∀ (cfg : Config) (now : String) (st : SysState) (task : ApiTask) (rest : List ApiTask),
      st.api_queue = task :: rest →
      cfg.api_providers ≠ [] →
      send_to_api_providers http cfg.api_providers task.provider = false →
      task.retry_count + 1 < api_max_retries cfg.api_providers (cfg.max_retries.getD 3) →
      (api_worker_step cfg http now st).1.api_queue =
        rest ++ [{ task with retry_count := task.retry_count + 1 }] ∧
      (api_worker_step cfg http now st).2 = some (5 * (task.retry_count + 1))) := by
  refine ⟨attempt_provider_config_error http p h1 h2 h3, ?_, ?_⟩
  · intro ps hint hall
    refine send_to_api_providers_eq_false http ps hint (fun q hq => ?_)
    obtain ⟨hq1, hq2, hq3⟩ := hall q hq
    rw [attempt_provider_config_error http q hq1 hq2 hq3]
    intro hc
    cases hc
  · intro cfg now st task rest hq hp hsend hcap
    obtain ⟨hsleep, hqueue, _⟩ := api_step_fail_retry cfg http now st task rest hq hp hsend hcap
    exact ⟨hqueue, hsleep⟩

/-- Witness for the amended C3 at the DELETE provider: the config error
is produced and swallowed, the send reports plain failure, and the
worker re-enqueues the concrete task with retry_count 1 after 5 s. -/
theorem unsupported_method_swallowed_and_retried_witness :
    attempt_provider (fun _ => true) ⟨"hook", true, some "DELETE", none⟩ =
      .configError ("Unsupported method: " ++
        methodOf ⟨"hook", true, some "DELETE", none⟩) ∧
    send_to_api_providers (fun _ => true) [⟨"hook", true, some "DELETE", none⟩] none = false ∧
    ((api_worker_step ⟨[], [], [⟨"hook", true, some "DELETE", none⟩], none, none, none⟩
        (fun _ => true) "now"
        ⟨[], 1, emptyBuf, [⟨"+1", "t", "hi", some 1, 0, none⟩], [], [], []⟩).1.api_queue =
      [] ++ [⟨"+1", "t", "hi", some 1, 1, none⟩] ∧
    (api_worker_step ⟨[], [], [⟨"hook", true, some "DELETE", none⟩], none, none, none⟩
        (fun _ => true) "now"
        ⟨[], 1, emptyBuf, [⟨"+1", "t", "hi", some 1, 0, none⟩], [], [], []⟩).2 =
      some (5 * (0 + 1))) := by
  have H := unsupported_method_swallowed_and_retried (fun _ => true)
    ⟨"hook", true, some "DELETE", none⟩ (by decide) (by decide) (by decide)
  exact ⟨H.1,
    H.2.1 [⟨"hook", true, some "DELETE", none⟩] none (by decide),
    H.2.2 ⟨[], [], [⟨"hook", true, some "DELETE", none⟩], none, none, none⟩ "now"
      ⟨[], 1, emptyBuf, [⟨"+1", "t", "hi", some 1, 0, none⟩], [], [], []⟩
      ⟨"+1", "t", "hi", some 1, 0, none⟩ [] rfl (by decide) (by decide) (by decide)⟩
/-- Counterexample to claim C4: every channel is configured non-empty
(one SMS recipient, one email recipient, one API provider), the API
channel is not yet in the Failure Set, and a task with message id 5 and
retry_count 2 fails terminally against cap 3.  The claim requires one
notification task in EVERY channel's queue whose recipients/providers
are non-empty — including the API queue (api_providers is non-empty) —
but the code adds "API" to failed_services before notify_failure runs,
so the API queue receives nothing: it ends empty while SMS and Email
each receive the notification. -/
theorem failure_notification_counterexample :
    (⟨["r1"], ["e1"], [⟨"hook", true, some "POST", some 3⟩], some 3, none, none⟩ :
      Config).api_providers ≠ [] ∧
    (api_worker_step ⟨["r1"], ["e1"], [⟨"hook", true, some "POST", some 3⟩], some 3, none, none⟩
      (fun _ => false) "now"
      ⟨[], 1, emptyBuf, [⟨"+1", "t", "m", some 5, 2, none⟩], [], [], []⟩).1.api_queue = [] ∧
    (api_worker_step ⟨["r1"], ["e1"], [⟨"hook", true, some "POST", some 3⟩], some 3, none, none⟩
      (fun _ => false) "now"
      ⟨[], 1, emptyBuf, [⟨"+1", "t", "m", some 5, 2, none⟩], [], [], []⟩).1.sms_queue =
      [⟨"System", "now", failureMessage "API" 5 "now", none, 0⟩] ∧
    (api_worker_step ⟨["r1"], ["e1"], [⟨"hook", true, some "POST", some 3⟩], some 3, none, none⟩
      (fun _ => false) "now"
      ⟨[], 1, emptyBuf, [⟨"+1", "t", "m", some 5, 2, none⟩], [], [], []⟩).1.email_queue =
      [⟨"System", "now", failureMessage "API" 5 "now", none, 0⟩] ∧
    (api_worker_step ⟨["r1"], ["e1"], [⟨"hook", true, some "POST", some 3⟩], some 3, none, none⟩
      (fun _ => false) "now"
      ⟨[], 1, emptyBuf, [⟨"+1", "t", "m", some 5, 2, none⟩], [], [], []⟩).1.failed_services =
      ["API"] := by
  refine ⟨by decide, by decide, by decide, by decide, by decide⟩

/-- Amended claim C4: when a task reaches the retry cap on a channel not
already in the Failure Set, the channel is added to the Failure Set and,
provided the task carries a message id, exactly one notification task
(message id none, zero retries) is injected into the queue of every
OTHER channel that is configured non-empty and not currently in the
Failure Set — the failing channel's own queue, any already-failed
channel's queue, and all queues when the task has no message id receive
nothing; a channel already in the Failure Set triggers no notification
at all, so there is at most one notification per sustained outage per
channel. -/
theorem failure_notification_edge_triggered :
    (∀ (cfg : Config) (http : Provider → Bool) (now : String) (st : SysState)
        (task : ApiTask) (rest : List ApiTask),
      st.api_queue = task :: rest →
      cfg.api_providers ≠ [] →
      send_to_api_providers http cfg.api_providers task.provider = false →
      ¬ task.retry_count + 1 < api_max_retries cfg.api_providers (cfg.max_retries.getD 3) →
      (api_worker_step cfg http now st).1.api_queue = rest ∧
      ("API" ∈ st.failed_services →
        (api_worker_step cfg http now st).1.failed_services = st.failed_services ∧
        (api_worker_step cfg http now st).1.sms_queue = st.sms_queue ∧
        (api_worker_step cfg http now st).1.email_queue = st.email_queue) ∧
      ("API" ∉ st.failed_services →
        (api_worker_step cfg http now st).1.failed_services = st.failed_services ++ ["API"] ∧
        (task.sms_id = none →
          (api_worker_step cfg http now st).1.sms_queue = st.sms_queue ∧
          (api_worker_step cfg http now st).1.email_queue = st.email_queue) ∧
        (∀ id, task.sms_id = some id →
          (api_worker_step cfg http now st).1.sms_queue = st.sms_queue ++
            (if "SMS" ∉ st.failed_services ∧ cfg.sms_recipients ≠ [] then
              [⟨"System", now, failureMessage "API" id now, none, 0⟩] else []) ∧
          (api_worker_step cfg http now st).1.email_queue = st.email_queue ++
            (if "Email" ∉ st.failed_services ∧ cfg.email_recipients ≠ [] then
              [⟨"System", now, failureMessage "API" id now, none, 0⟩] else [])))) ∧
    (∀ (cfg : Config) (modemSend : String → Bool) (now : String) (recipients : List String)
        (st : SysState) (task : FwdTask) (rest : List FwdTask),
      st.sms_queue = task :: rest →
      recipients ≠ [] →
      recipients.any modemSend = false →
      ¬ task.retry_count + 1 < cfg.sms_max_retries.getD (cfg.max_retries.getD 3) →
      (sms_worker_step cfg modemSend now recipients st).1.sms_queue = rest ∧
      ("SMS" ∈ st.failed_services →
        (sms_worker_step cfg modemSend now recipients st).1.failed_services =
          st.failed_services ∧
        (sms_worker_step cfg modemSend now recipients st).1.api_queue = st.api_queue ∧
        (sms_worker_step cfg modemSend now recipients st).1.email_queue = st.email_queue) ∧
      ("SMS" ∉ st.failed_services →
        (sms_worker_step cfg modemSend now recipients st).1.failed_services =
          st.failed_services ++ ["SMS"] ∧
        (task.sms_id = none →
          (sms_worker_step cfg modemSend now recipients st).1.api_queue = st.api_queue ∧
          (sms_worker_step cfg modemSend now recipients st).1.email_queue = st.email_queue) ∧
        (∀ id, task.sms_id = some id →
          (sms_worker_step cfg modemSend now recipients st).1.api_queue = st.api_queue ++
            (if "API" ∉ st.failed_services ∧ cfg.api_providers ≠ [] then
              [⟨"System", now, failureMessage "SMS" id now, none, 0, none⟩] else []) ∧
          (sms_worker_step cfg modemSend now recipients st).1.email_queue = st.email_queue ++
            (if "Email" ∉ st.failed_services ∧ cfg.email_recipients ≠ [] then
              [⟨"System", now, failureMessage "SMS" id now, none, 0⟩] else [])))) ∧
    (∀ (cfg : Config) (now : String) (st : SysState) (task : FwdTask) (rest : List FwdTask),
      st.email_queue = task :: rest →
      cfg.email_recipients ≠ [] →
      ¬ task.retry_count + 1 < cfg.email_max_retries.getD (cfg.max_retries.getD 3) →
      (email_worker_step cfg false now st).1.email_queue = rest ∧
      ("Email" ∈ st.failed_services →
        (email_worker_step cfg false now st).1.failed_services = st.failed_services ∧
        (email_worker_step cfg false now st).1.api_queue = st.api_queue ∧
        (email_worker_step cfg false now st).1.sms_queue = st.sms_queue) ∧
      ("Email" ∉ st.failed_services →
        (email_worker_step cfg false now st).1.failed_services =
          st.failed_services ++ ["Email"] ∧
        (task.sms_id = none →
          (email_worker_step cfg false now st).1.api_queue = st.api_queue ∧
          (email_worker_step cfg false now st).1.sms_queue = st.sms_queue) ∧
        (∀ id, task.sms_id = some id →
          (email_worker_step cfg false now st).1.api_queue = st.api_queue ++
            (if "API" ∉ st.failed_services ∧ cfg.api_providers ≠ [] then
              [⟨"System", now, failureMessage "Email" id now, none, 0, none⟩] else []) ∧
          (email_worker_step cfg false now st).1.sms_queue = st.sms_queue ++
            (if "SMS" ∉ st.failed_services ∧ cfg.sms_recipients ≠ [] then
              [⟨"System", now, failureMessage "Email" id now, none, 0⟩] else [])))) := by
  refine ⟨?_, ?_, ?_⟩
  · intro cfg http now st task rest hq hp hsend hcap
    obtain ⟨_, h2, _, h4, h5⟩ := api_step_fail_terminal cfg http now st task rest hq hp hsend hcap
    exact ⟨h2, h4, h5⟩
  · intro cfg modemSend now recipients st task rest hq hp hsend hcap
    obtain ⟨_, h2, _, h4, h5⟩ :=
      sms_step_fail_terminal cfg modemSend now recipients st task rest hq hp hsend hcap
    exact ⟨h2, h4, h5⟩
  · intro cfg now st task rest hq hp hcap
    obtain ⟨_, h2, _, h4, h5⟩ := email_step_fail_terminal cfg false now st task rest hq hp rfl hcap
    exact ⟨h2, h4, h5⟩

/-- Witness for the amended C4 at the counterexample configuration: a
fresh API outage marks the channel failed and notifies exactly the SMS
and Email queues. -/
theorem failure_notification_edge_triggered_witness :
    (api_worker_step ⟨["r1"], ["e1"], [⟨"hook", true, some "POST", some 3⟩], some 3, none, none⟩
      (fun _ => false) "now"
      ⟨[], 1, emptyBuf, [⟨"+1", "t", "m", some 5, 2, none⟩], [], [], []⟩).1.api_queue = [] ∧
    (api_worker_step ⟨["r1"], ["e1"], [⟨"hook", true, some "POST", some 3⟩], some 3, none, none⟩
      (fun _ => false) "now"
      ⟨[], 1, emptyBuf, [⟨"+1", "t", "m", some 5, 2, none⟩], [], [], []⟩).1.failed_services =
      [] ++ ["API"] ∧
    (api_worker_step ⟨["r1"], ["e1"], [⟨"hook", true, some "POST", some 3⟩], some 3, none, none⟩
      (fun _ => false) "now"
      ⟨[], 1, emptyBuf, [⟨"+1", "t", "m", some 5, 2, none⟩], [], [], []⟩).1.sms_queue =
      [] ++ (if "SMS" ∉ ([] : List String) ∧ (["r1"] : List String) ≠ [] then
        [⟨"System", "now", failureMessage "API" 5 "now", none, 0⟩] else []) ∧
    (api_worker_step ⟨["r1"], ["e1"], [⟨"hook", true, some "POST", some 3⟩], some 3, none, none⟩
      (fun _ => false) "now"
      ⟨[], 1, emptyBuf, [⟨"+1", "t", "m", some 5, 2, none⟩], [], [], []⟩).1.email_queue =
      [] ++ (if "Email" ∉ ([] : List String) ∧ (["e1"] : List String) ≠ [] then
        [⟨"System", "now", failureMessage "API" 5 "now", none, 0⟩] else []) := by
  have H := failure_notification_edge_triggered.1
    ⟨["r1"], ["e1"], [⟨"hook", true, some "POST", some 3⟩], some 3, none, none⟩
    (fun _ => false) "now"
    ⟨[], 1, emptyBuf, [⟨"+1", "t", "m", some 5, 2, none⟩], [], [], []⟩
    ⟨"+1", "t", "m", some 5, 2, none⟩ [] rfl (by decide)
    (send_http_false _ _) (by decide)
  exact ⟨H.1, (H.2.2 (by decide)).1, ((H.2.2 (by decide)).2.2 5 rfl).1,
    ((H.2.2 (by decide)).2.2 5 rfl).2⟩
/-- Counterexample to claim C7: providers a (default, max_retries 1,
selected by the task's hint "a") and b (non-default, max_retries 7, not
selected).  The cap over the selected providers is 1, and the failing
task already has retry_count 1, so under the claim the incremented count
2 reaches that cap and the task must transition to FAILED_TERMINAL with
no re-enqueue.  The code instead takes the max over ALL configured
providers (7) and re-enqueues the task with retry_count 2 after a 10
second backoff. -/
theorem api_retry_cap_selected_counterexample :
    api_max_retries (selected_providers
      [⟨"a", true, some "POST", some 1⟩, ⟨"b", false, some "POST", some 7⟩] (some "a"))
      ((none : Option Nat).getD 3) = 1 ∧
    api_max_retries [⟨"a", true, some "POST", some 1⟩, ⟨"b", false, some "POST", some 7⟩]
      ((none : Option Nat).getD 3) = 7 ∧
    (api_worker_step ⟨[], [], [⟨"a", true, some "POST", some 1⟩,
        ⟨"b", false, some "POST", some 7⟩], none, none, none⟩
      (fun _ => false) "now"
      ⟨[], 1, emptyBuf, [⟨"+1", "t", "m", some 1, 1, some "a"⟩], [], [], []⟩).1.api_queue =
      [⟨"+1", "t", "m", some 1, 2, some "a"⟩] ∧
    (api_worker_step ⟨[], [], [⟨"a", true, some "POST", some 1⟩,
        ⟨"b", false, some "POST", some 7⟩], none, none, none⟩
      (fun _ => false) "now"
      ⟨[], 1, emptyBuf, [⟨"+1", "t", "m", some 1, 1, some "a"⟩], [], [], []⟩).1.failed_services =
      [] := by
  refine ⟨by decide, by decide, by decide, by decide⟩

/-- Amended claim C7: the channel-level retry cap used to decide retry
versus terminal failure is the maximum configured max-retries across ALL
configured API providers (with the global default for providers that
configure none), regardless of which providers the task's hint selects;
in particular two failing tasks with the same retry_count but different
provider hints always receive the same retry-versus-terminal decision. -/
theorem api_retry_cap_over_all_providers :
    (∀ (cfg : Config) (http : Provider → Bool) (now : String) (st : SysState)
        (task : ApiTask) (rest : List ApiTask),
      st.api_queue = task :: rest →
      cfg.api_providers ≠ [] →
      send_to_api_providers http cfg.api_providers task.provider = false →
      ((task.retry_count + 1 < api_max_retries cfg.api_providers (cfg.max_retries.getD 3) →
        (api_worker_step cfg http now st).1.api_queue =
          rest ++ [{ task with retry_count := task.retry_count + 1 }] ∧
        (api_worker_step cfg http now st).2 = some (5 * (task.retry_count + 1))) ∧
      (¬ task.retry_count + 1 < api_max_retries cfg.api_providers (cfg.max_retries.getD 3) →
        (api_worker_step cfg http now st).1.api_queue = rest ∧
        (api_worker_step cfg http now st).2 = none))) ∧
    (∀ (cfg : Config) (http : Provider → Bool) (now : String) (st st2 : SysState)
        (task task2 : ApiTask) (rest : List ApiTask) (rest2 : List ApiTask),
      st.api_queue = task :: rest →
      st2.api_queue = task2 :: rest2 →
      cfg.api_providers ≠ [] →
      send_to_api_providers http cfg.api_providers task.provider = false →
      send_to_api_providers http cfg.api_providers task2.provider = false →
      task.retry_count = task2.retry_count →
      ((api_worker_step cfg http now st).2.isSome ↔
        (api_worker_step cfg http now st2).2.isSome)) := by
  constructor
  · intro cfg http now st task rest hq hp hsend
    constructor
    · intro hcap
      obtain ⟨h1, h2, _⟩ := api_step_fail_retry cfg http now st task rest hq hp hsend hcap
      exact ⟨h2, h1⟩
    · intro hcap
      obtain ⟨h1, h2, _⟩ := api_step_fail_terminal cfg http now st task rest hq hp hsend hcap
      exact ⟨h2, h1⟩
  · intro cfg http now st st2 task task2 rest rest2 hq hq2 hp hsend hsend2 hrc
    by_cases hcap : task.retry_count + 1 < api_max_retries cfg.api_providers (cfg.max_retries.getD 3)
    · obtain ⟨h1, _⟩ := api_step_fail_retry cfg http now st task rest hq hp hsend hcap
      obtain ⟨h2, _⟩ := api_step_fail_retry cfg http now st2 task2 rest2 hq2 hp hsend2
        (by rw [← hrc]; exact hcap)
      rw [h1, h2]
      simp
    · obtain ⟨h1, _⟩ := api_step_fail_terminal cfg http now st task rest hq hp hsend hcap
      obtain ⟨h2, _⟩ := api_step_fail_terminal cfg http now st2 task2 rest2 hq2 hp hsend2
        (by rw [← hrc]; exact hcap)
      rw [h1, h2]

/-- Witness for the amended C7 at the counterexample configuration: the
cap 7 taken over all providers keeps the hinted task retrying (incremented
count 2), although the selected provider alone caps at 1. -/
theorem api_retry_cap_over_all_providers_witness :
    (api_worker_step ⟨[], [], [⟨"a", true, some "POST", some 1⟩,
        ⟨"b", false, some "POST", some 7⟩], none, none, none⟩
      (fun _ => false) "now"
      ⟨[], 1, emptyBuf, [⟨"+1", "t", "m", some 1, 1, some "a"⟩], [], [], []⟩).1.api_queue =
      [] ++ [⟨"+1", "t", "m", some 1, 2, some "a"⟩] ∧
    (api_worker_step ⟨[], [], [⟨"a", true, some "POST", some 1⟩,
        ⟨"b", false, some "POST", some 7⟩], none, none, none⟩
      (fun _ => false) "now"
      ⟨[], 1, emptyBuf, [⟨"+1", "t", "m", some 1, 1, some "a"⟩], [], [], []⟩).2 =
      some (5 * (1 + 1)) :=
  (api_retry_cap_over_all_providers.1
    ⟨[], [], [⟨"a", true, some "POST", some 1⟩, ⟨"b", false, some "POST", some 7⟩],
      none, none, none⟩
    (fun _ => false) "now"
    ⟨[], 1, emptyBuf, [⟨"+1", "t", "m", some 1, 1, some "a"⟩], [], [], []⟩
    ⟨"+1", "t", "m", some 1, 1, some "a"⟩ [] rfl (by decide)
    (send_http_false _ _)).1 (by decide)
/-- Non-completing ingest into an existing buffer entry: the pair is
appended to the entry, which keeps its previously recorded total_parts
and timestamp, and the SMS/Email queues are untouched. -/
theorem handleSmsFragment_not_complete_entry (st : SysState) (sender timestamp text : String)
    (ref_num total_parts part_num : Nat) (provider : Option String) (md : MessageData)
    (hb : getBuf st.multipart_messages sender ref_num = some md)
    (h : md.parts.length + 1 ≠ total_parts) :
    getBuf (handleSmsFragment st sender timestamp text ref_num total_parts part_num
      provider).multipart_messages sender ref_num =
      some { md with parts := md.parts ++ [(part_num, text)] } ∧
    (handleSmsFragment st sender timestamp text ref_num total_parts part_num
      provider).sms_queue = st.sms_queue ∧
    (handleSmsFragment st sender timestamp text ref_num total_parts part_num
      provider).email_queue = st.email_queue := by
  unfold handleSmsFragment
  simp only [hb]
  rw [if_neg (by simpa using h)]
  exact ⟨getBuf_setBuf_self _ _ _ _, rfl, rfl⟩

/-- Counterexample to claim C6: a reassembly opened by a fragment with
total_parts 3 (the recorded first-seen value) receives a second fragment
reporting total_parts 2.  Under the claim, completion is detected
against the first-seen value 3, so two buffered parts must not complete.
The code compares the buffer size against the CURRENT fragment's value 2
and completes: the buffer entry is deleted and "AB" is enqueued. -/
theorem first_seen_total_parts_counterexample :
    getBuf (handleSmsFragment initState "S" "t" "A" 7 3 1 none).multipart_messages "S" 7 =
      some ⟨[(1, "A")], 3, "t"⟩ ∧
    (handleSmsFragment (handleSmsFragment initState "S" "t" "A" 7 3 1 none)
      "S" "t" "B" 7 2 2 none).sms_queue = [⟨"S", "t", "AB", some 1, 0⟩] ∧
    getBuf (handleSmsFragment (handleSmsFragment initState "S" "t" "A" 7 3 1 none)
      "S" "t" "B" 7 2 2 none).multipart_messages "S" 7 = none := by
  refine ⟨by decide, by decide, by decide⟩

/-- Amended claim C6: the first-seen total_parts is recorded in the
buffer entry and retained verbatim by later fragments (the entry written
by a non-completing ingest keeps md.total_parts), but it is never
consulted for completion: completion is detected against the total_parts
reported by the fragment currently being ingested, whatever value the
entry records. -/
theorem completion_governed_by_fragment_total (st : SysState)
    (sender timestamp text : String) (ref_num total_parts part_num : Nat)
    (provider : Option String) (md : MessageData)
    (hb : getBuf st.multipart_messages sender ref_num = some md) :
    (md.parts.length + 1 = total_parts →
      getBuf (handleSmsFragment st sender timestamp text ref_num total_parts part_num
        provider).multipart_messages sender ref_num = none ∧
      (handleSmsFragment st sender timestamp text ref_num total_parts part_num
        provider).sms_queue = st.sms_queue ++
        [⟨sender, timestamp, joinParts (sortParts (md.parts ++ [(part_num, text)])),
          some (save_or_update_sms st.db st.nextId sender timestamp text
            (some ref_num) (some total_parts) (some part_num)).smsId, 0⟩]) ∧
    (md.parts.length + 1 ≠ total_parts →
      getBuf (handleSmsFragment st sender timestamp text ref_num total_parts part_num
        provider).multipart_messages sender ref_num =
        some { md with parts := md.parts ++ [(part_num, text)] } ∧
      (handleSmsFragment st sender timestamp text ref_num total_parts part_num
        provider).sms_queue = st.sms_queue) := by
  have hpa : partsAt st sender ref_num = md.parts := by
    unfold partsAt
    rw [hb]
  constructor
  · intro h
    have hstep := handleSmsFragment_complete st sender timestamp text ref_num total_parts
      part_num provider (by rw [hpa]; exact h)
    rw [hstep]
    exact ⟨getBuf_eraseBuf_self _ _ _, by rw [hpa]⟩
  · intro h
    obtain ⟨hg, hs, _⟩ := handleSmsFragment_not_complete_entry st sender timestamp text
      ref_num total_parts part_num provider md hb h
    exact ⟨hg, hs⟩

/-- Witness for the amended C6 at the counterexample input: the second
fragment reports total_parts 2 and completes a buffer whose recorded
first-seen value is 3. -/
theorem completion_governed_by_fragment_total_witness :
    getBuf (handleSmsFragment (handleSmsFragment initState "S" "t" "A" 7 3 1 none)
      "S" "t" "B" 7 2 2 none).multipart_messages "S" 7 = none ∧
    (handleSmsFragment (handleSmsFragment initState "S" "t" "A" 7 3 1 none)
      "S" "t" "B" 7 2 2 none).sms_queue =
      (handleSmsFragment initState "S" "t" "A" 7 3 1 none).sms_queue ++
      [⟨"S", "t",
        joinParts (sortParts ((⟨[(1, "A")], 3, "t"⟩ : MessageData).parts ++ [(2, "B")])),
        some (save_or_update_sms (handleSmsFragment initState "S" "t" "A" 7 3 1 none).db
          (handleSmsFragment initState "S" "t" "A" 7 3 1 none).nextId "S" "t" "B"
          (some 7) (some 2) (some 2)).smsId, 0⟩] :=
  (completion_governed_by_fragment_total
    (handleSmsFragment initState "S" "t" "A" 7 3 1 none) "S" "t" "B" 7 2 2 none
    ⟨[(1, "A")], 3, "t"⟩ (by decide)).1 (by decide)
/-- Counterexample to claim C8: a buffer already holding part_index 1
with text "A" ingests another fragment with the same part_index 1 and
text "B".  Under the claim the prior entry is replaced (last write wins)
and the buffer never holds two entries with the same part_index; the
code appends instead, leaving both (1, "A") and (1, "B") in the buffer. -/
theorem duplicate_part_index_counterexample :
    getBuf (handleSmsFragment (handleSmsFragment initState "S" "t" "A" 7 3 1 none)
      "S" "t" "B" 7 3 1 none).multipart_messages "S" 7 =
      some ⟨[(1, "A"), (1, "B")], 3, "t"⟩ := by
  decide

/-- Amended claim C8: ingesting a fragment whose part_index equals that
of an entry already in the buffer APPENDS a second entry — both the old
and the new pair are present afterwards, so the buffer can hold two
entries with the same part_index; the buffer size still never exceeds
the ingested fragment's total_parts, because the entry is consumed the
moment its size reaches that value. -/
theorem duplicate_part_index_appends (st : SysState) (sender timestamp text : String)
    (ref_num total_parts part_num : Nat) (provider : Option String) (md : MessageData)
    (hb : getBuf st.multipart_messages sender ref_num = some md) :
    (md.parts.length + 1 ≠ total_parts →
      getBuf (handleSmsFragment st sender timestamp text ref_num total_parts part_num
        provider).multipart_messages sender ref_num =
        some { md with parts := md.parts ++ [(part_num, text)] } ∧
      (∀ t0, (part_num, t0) ∈ md.parts →
        (part_num, t0) ∈ md.parts ++ [(part_num, text)] ∧
        (part_num, text) ∈ md.parts ++ [(part_num, text)])) ∧
    (md.parts.length + 1 = total_parts →
      getBuf (handleSmsFragment st sender timestamp text ref_num total_parts part_num
        provider).multipart_messages sender ref_num = none) ∧
    (md.parts.length < total_parts →
      ∀ md2, getBuf (handleSmsFragment st sender timestamp text ref_num total_parts part_num
        provider).multipart_messages sender ref_num = some md2 →
        md2.parts.length ≤ total_parts) := by
  have hpa : partsAt st sender ref_num = md.parts := by
    unfold partsAt
    rw [hb]
  refine ⟨?_, ?_, ?_⟩
  · intro h
    obtain ⟨hg, _, _⟩ := handleSmsFragment_not_complete_entry st sender timestamp text
      ref_num total_parts part_num provider md hb h
    refine ⟨hg, fun t0 ht0 => ⟨by simp [ht0], by simp⟩⟩
  · intro h
    have hstep := handleSmsFragment_complete st sender timestamp text ref_num total_parts
      part_num provider (by rw [hpa]; exact h)
    rw [hstep]
    exact getBuf_eraseBuf_self _ _ _
  · intro hlt md2 hmd2
    by_cases h : md.parts.length + 1 = total_parts
    · have hstep := handleSmsFragment_complete st sender timestamp text ref_num total_parts
        part_num provider (by rw [hpa]; exact h)
      rw [hstep, getBuf_eraseBuf_self] at hmd2
      cases hmd2
    · obtain ⟨hg, _, _⟩ := handleSmsFragment_not_complete_entry st sender timestamp text
        ref_num total_parts part_num provider md hb h
      rw [hg] at hmd2
      injection hmd2 with hh
      subst hh
      simp only [List.length_append, List.length_cons, List.length_nil]
      omega

/-- Witness for the amended C8 at the duplicate-arrival input: both
part-1 entries are present afterwards and the buffer stays within the
fragment total. -/
theorem duplicate_part_index_appends_witness :
    (getBuf (handleSmsFragment (handleSmsFragment initState "S" "t" "A" 7 3 1 none)
      "S" "t" "B" 7 3 1 none).multipart_messages "S" 7 =
      some ⟨[(1, "A"), (1, "B")], 3, "t"⟩ ∧
    ((1, "A") ∈ (⟨[(1, "A")], 3, "t"⟩ : MessageData).parts ++ [(1, "B")] ∧
     (1, "B") ∈ (⟨[(1, "A")], 3, "t"⟩ : MessageData).parts ++ [(1, "B")])) ∧
    (⟨[(1, "A"), (1, "B")], 3, "t"⟩ : MessageData).parts.length ≤ 3 := by
  have H := duplicate_part_index_appends
    (handleSmsFragment initState "S" "t" "A" 7 3 1 none) "S" "t" "B" 7 3 1 none
    ⟨[(1, "A")], 3, "t"⟩ (by decide)
  exact ⟨⟨(H.1 (by decide)).1, (H.1 (by decide)).2 "A" (by decide)⟩,
    H.2.2 (by decide) ⟨[(1, "A"), (1, "B")], 3, "t"⟩ (H.1 (by decide)).1⟩
/-- Counterexample to claim C5: the three fragments of a message arrive
in the order 3 ("C"), 2 ("B"), 1 ("A").  When the buffer reaches
total_parts the authoritative complete text "ABC" is computed and
enqueued, and the buffer entry is removed — but the persisted text field
is NEVER overwritten with it: the row still holds the preview "ACB"
accumulated by the append-after/prepend-before heuristic. -/
theorem persisted_text_not_overwritten_counterexample :
    (ingestUniform "S" "t" 7 3 none initState [(3, "C"), (2, "B"), (1, "A")]).db =
      [⟨1, "S", "t", some 7, some 3, "ACB", false, false, false⟩] ∧
    (ingestUniform "S" "t" 7 3 none initState [(3, "C"), (2, "B"), (1, "A")]).sms_queue =
      [⟨"S", "t", "ABC", some 1, 0⟩] ∧
    getBuf (ingestUniform "S" "t" 7 3 none initState
      [(3, "C"), (2, "B"), (1, "A")]).multipart_messages "S" 7 = none ∧
    ("ACB" : String) ≠ "ABC" := by
  refine ⟨by decide, by decide, by decide, by decide⟩

/-- Amended claim C5: when the buffer reaches exactly total_parts
entries the buffer entry for (sender, reference) is removed and the
authoritative part_index-sorted concatenation is the text enqueued to
the queues, but the persisted text field is NOT overwritten with it: the
completing ingest leaves the table exactly as save_or_update_sms left it
after recording the final fragment's preview update, which can differ
from the authoritative text. -/
theorem completion_keeps_preview_text (st : SysState) (sender timestamp text : String)
    (ref_num total_parts part_num : Nat) (provider : Option String)
    (h : (partsAt st sender ref_num).length + 1 = total_parts) :
    (handleSmsFragment st sender timestamp text ref_num total_parts part_num provider).db =
      (save_or_update_sms st.db st.nextId sender timestamp text
        (some ref_num) (some total_parts) (some part_num)).db ∧
    getBuf (handleSmsFragment st sender timestamp text ref_num total_parts part_num
      provider).multipart_messages sender ref_num = none ∧
    (handleSmsFragment st sender timestamp text ref_num total_parts part_num
      provider).sms_queue = st.sms_queue ++
      [⟨sender, timestamp,
        joinParts (sortParts (partsAt st sender ref_num ++ [(part_num, text)])),
        some (save_or_update_sms st.db st.nextId sender timestamp text
          (some ref_num) (some total_parts) (some part_num)).smsId, 0⟩] ∧
    (handleSmsFragment st sender timestamp text ref_num total_parts part_num
      provider).email_queue = st.email_queue ++
      [⟨sender, timestamp,
        joinParts (sortParts (partsAt st sender ref_num ++ [(part_num, text)])),
        some (save_or_update_sms st.db st.nextId sender timestamp text
          (some ref_num) (some total_parts) (some part_num)).smsId, 0⟩] := by
  have hstep := handleSmsFragment_complete st sender timestamp text ref_num total_parts
    part_num provider h
  rw [hstep]
  exact ⟨rfl, getBuf_eraseBuf_self _ _ _, rfl, rfl⟩

/-- Witness for the amended C5 at the counterexample input: the final
fragment of the 3-2-1 arrival completes the message; the table keeps the
preview written by save_or_update_sms while the queue gets "ABC". -/
theorem completion_keeps_preview_text_witness :
    (handleSmsFragment (ingestUniform "S" "t" 7 3 none initState [(3, "C"), (2, "B")])
      "S" "t" "A" 7 3 1 none).db =
      (save_or_update_sms (ingestUniform "S" "t" 7 3 none initState [(3, "C"), (2, "B")]).db
        (ingestUniform "S" "t" 7 3 none initState [(3, "C"), (2, "B")]).nextId
        "S" "t" "A" (some 7) (some 3) (some 1)).db ∧
    getBuf (handleSmsFragment (ingestUniform "S" "t" 7 3 none initState [(3, "C"), (2, "B")])
      "S" "t" "A" 7 3 1 none).multipart_messages "S" 7 = none ∧
    (handleSmsFragment (ingestUniform "S" "t" 7 3 none initState [(3, "C"), (2, "B")])
      "S" "t" "A" 7 3 1 none).sms_queue =
      (ingestUniform "S" "t" 7 3 none initState [(3, "C"), (2, "B")]).sms_queue ++
      [⟨"S", "t", joinParts (sortParts (partsAt (ingestUniform "S" "t" 7 3 none initState
          [(3, "C"), (2, "B")]) "S" 7 ++ [(1, "A")])),
        some (save_or_update_sms
          (ingestUniform "S" "t" 7 3 none initState [(3, "C"), (2, "B")]).db
          (ingestUniform "S" "t" 7 3 none initState [(3, "C"), (2, "B")]).nextId
          "S" "t" "A" (some 7) (some 3) (some 1)).smsId, 0⟩] ∧
    (handleSmsFragment (ingestUniform "S" "t" 7 3 none initState [(3, "C"), (2, "B")])
      "S" "t" "A" 7 3 1 none).email_queue =
      (ingestUniform "S" "t" 7 3 none initState [(3, "C"), (2, "B")]).email_queue ++
      [⟨"S", "t", joinParts (sortParts (partsAt (ingestUniform "S" "t" 7 3 none initState
          [(3, "C"), (2, "B")]) "S" 7 ++ [(1, "A")])),
        some (save_or_update_sms
          (ingestUniform "S" "t" 7 3 none initState [(3, "C"), (2, "B")]).db
          (ingestUniform "S" "t" 7 3 none initState [(3, "C"), (2, "B")]).nextId
          "S" "t" "A" (some 7) (some 3) (some 1)).smsId, 0⟩] :=
  completion_keeps_preview_text
    (ingestUniform "S" "t" 7 3 none initState [(3, "C"), (2, "B")])
    "S" "t" "A" 7 3 1 none (by decide)

/-- Claim C10: ingesting the fragment with part_index 1 immediately
enqueues an additional API delivery task carrying only that fragment's
text, the id under which the fragment was persisted, zero retries and
the provider hint, before assembly completes; non-part-1 fragments
enqueue no such partial task, and the SMS and Email queues receive
nothing until completion.  When part 1 itself completes the message, the
partial task precedes the complete-text task on the API queue. -/
theorem part_one_partial_api_task (st : SysState) (sender timestamp text : String)
    (ref_num total_parts : Nat) (provider : Option String) :
    ((partsAt st sender ref_num).length + 1 ≠ total_parts →
      (handleSmsFragment st sender timestamp text ref_num total_parts 1 provider).api_queue =
        st.api_queue ++ [⟨sender, timestamp, text,
          some (save_or_update_sms st.db st.nextId sender timestamp text
            (some ref_num) (some total_parts) (some 1)).smsId, 0, provider⟩] ∧
      (handleSmsFragment st sender timestamp text ref_num total_parts 1 provider).sms_queue =
        st.sms_queue ∧
      (handleSmsFragment st sender timestamp text ref_num total_parts 1
        provider).email_queue = st.email_queue) ∧
    (∀ part_num, part_num ≠ 1 → (partsAt st sender ref_num).length + 1 ≠ total_parts →
      (handleSmsFragment st sender timestamp text ref_num total_parts part_num
        provider).api_queue = st.api_queue) ∧
    ((partsAt st sender ref_num).length + 1 = total_parts →
      (handleSmsFragment st sender timestamp text ref_num total_parts 1 provider).api_queue =
        st.api_queue ++
          [⟨sender, timestamp, text,
            some (save_or_update_sms st.db st.nextId sender timestamp text
              (some ref_num) (some total_parts) (some 1)).smsId, 0, provider⟩,
           ⟨sender, timestamp,
            joinParts (sortParts (partsAt st sender ref_num ++ [(1, text)])),
            some (save_or_update_sms st.db st.nextId sender timestamp text
              (some ref_num) (some total_parts) (some 1)).smsId, 0, provider⟩]) := by
  refine ⟨?_, ?_, ?_⟩
  · intro h
    obtain ⟨_, hmd, hstep⟩ := handleSmsFragment_not_complete st sender timestamp text
      ref_num total_parts 1 provider h
    rw [hstep]
    refine ⟨?_, rfl, rfl⟩
    rw [if_pos rfl]
  · intro part_num hp h
    obtain ⟨_, hmd, hstep⟩ := handleSmsFragment_not_complete st sender timestamp text
      ref_num total_parts part_num provider h
    rw [hstep]
    exact if_neg hp
  · intro h
    have hstep := handleSmsFragment_complete st sender timestamp text ref_num total_parts
      1 provider h
    rw [hstep]
    rw [if_pos rfl]
    simp

/-- Witness for C10: the first fragment of a two-part message enqueues
exactly the partial API task and nothing on the SMS/Email queues. -/
theorem part_one_partial_api_task_witness :
    (handleSmsFragment initState "S" "t" "hello " 7 2 1 none).api_queue =
      initState.api_queue ++ [⟨"S", "t", "hello ",
        some (save_or_update_sms initState.db initState.nextId "S" "t" "hello "
          (some 7) (some 2) (some 1)).smsId, 0, none⟩] ∧
    (handleSmsFragment initState "S" "t" "hello " 7 2 1 none).sms_queue =
      initState.sms_queue ∧
    (handleSmsFragment initState "S" "t" "hello " 7 2 1 none).email_queue =
      initState.email_queue :=
  (part_one_partial_api_task initState "S" "t" "hello " 7 2 none).1 (by decide)